import Mathlib

/-!
# SVM30 monitor on the Raspberry Pi: the command-line program `svm30.cpp`

A shallow embedding of the control program (`src/svm30.cpp`) that drives the
SVM30 library (`src/svm30lib.h`).  The library's implementation is not part of
the sources at hand, so every library call is answered by the environment: the
state carries an arbitrary sequence of replies still to come, and each library
call takes the first of them.  Since the program is deterministic, quantifying
over all reply sequences covers every behaviour of the sensor.

Everything the program does to the outside world (library calls, `sleep`,
printing) is appended to a trace, in program order.

Conventions
* `uint16_t`, `uint8_t`, `uint32_t` are natural numbers, reduced modulo `2^w`
  where the source narrows a value.
* `float` values are only copied by this program; they are carried as the
  32-bit pattern of the IEEE-754 single.
* The build modelled is the default one (`SDS011` not defined).
* Signals are asynchronous and are not modelled.
-/

namespace SVM30

/-! ## Data model -/

/-- A C `float`, carried by its bit pattern (the program never computes with it). -/
structure CFloat where
  bits : Nat
  deriving DecidableEq, Repr, Inhabited

/-- The measurement record `struct svm_values` of `svm30lib.h`. -/
structure svm_values where
  r_humidity : Nat
  r_temperature : Nat
  humidity : Int
  temperature : Int
  absolute_hum : CFloat
  CO2eq : Nat
  TVOC : Nat
  H2_signal : Nat
  Ethanol_signal : Nat
  heat_index : CFloat
  dew_point : CFloat
  deriving DecidableEq, Repr, Inhabited

/-- The parameter record `struct svm_par` of `svm30.cpp` (build without SDS011). -/
structure svm_par where
  baselineCo2 : Nat
  baselineTVOC : Nat
  setBaseline : Bool
  dev_info_only : Bool
  measure : Bool
  loop_count : Nat
  loop_delay : Nat
  timestamp : Bool
  verbose : Bool
  raw : Bool
  humComp : Bool
  AirQual : Bool
  HumTemp : Bool
  DispBaseline : Bool
  DewPoint : Bool
  AbsHum : Bool
  HeatInd : Bool
  tempCel : Bool
  v : svm_values
  deriving DecidableEq, Repr, Inhabited

/-! ## Constants of `svm30lib.h` -/

def ERR_OK : Nat := 0x00
def ERR_PROTOCOL : Nat := 0x51
def SGP30_ADDRESS : Nat := 0x58
def SGP30 : Nat := SGP30_ADDRESS
def SHTC1_ADDRESS : Nat := 0x70
def SHTC1 : Nat := SHTC1_ADDRESS
def version : String := "1.0 / October 2019"
def RED : Nat := 1
def GREEN : Nat := 2
def YELLOW : Nat := 3
def BLUE : Nat := 4
def WHITE : Nat := 5
def EXIT_SUCCESS : Nat := 0
def EXIT_FAILURE : Nat := 1

/-! ## The environment: library calls, replies, trace -/

/-- The operations of class `SVM30` that the program uses, with their arguments. -/
inductive Call where
  | EnableDebugging (act : Bool)
  | SetTempCelsius (act : Bool)
  | begin
  | GetDriverVersion
  | GetId (device : Nat)
  | GetFeatureSet
  | MeasureTest
  | GetBaseLine_TVOC
  | SetBaseLine_CO2 (baseline : Nat)
  | SetBaseLine_TVOC (baseline : Nat)
  | GetBaseLines
  | GetValues (raw : Bool)
  | SetHumidity (humidity : CFloat)
  | TriggerSGP30
  | close
  deriving DecidableEq, Repr

/-- What a library call hands back: its boolean result and the contents it
leaves in the caller's buffer.  Each call reads only the fields of its own
signature; a `void` call reads none. -/
structure Reply where
  ok : Bool
  id0 : Nat
  id1 : Nat
  id2 : Nat
  feature0 : Nat
  feature1 : Nat
  baseline : Nat
  baselines : Nat
  values : svm_values
  text : String
  deriving DecidableEq, Repr, Inhabited

/-- A value passed to a `printf` conversion. -/
inductive Arg where
  | str (s : String)
  | num (n : Int)
  | chr (c : Char)
  | flt (f : CFloat)
  | fdiv (n : Int) (d : Int)
  deriving DecidableEq, Repr

/-- One observable action of the program. -/
inductive Event where
  | call (c : Call) (r : Reply)
  | sleep (seconds : Nat)
  | p_printf (coll : Nat) (format : String) (args : List Arg)
  | printf (format : String) (args : List Arg)
  deriving DecidableEq, Repr

/-- Global state of a run: the program's globals `NoColor` and `progname`, the
replies the library has yet to give (`replies 0` answers the next call), the
time stamps `get_time_stamp` has yet to produce (`clock 0` is the next one), the
integer part of what libc `strtod` makes of a text, and the trace so far. -/
structure State where
  NoColor : Bool
  progname : String
  replies : Nat → Reply
  clock : Nat → String
  strtod : String → Int
  trace : List Event

/-- The cast to `uint32_t`.  (For a value outside the range the C conversion
from `double` is undefined; the model wraps.) -/
def to_uint32 (x : Int) : Nat := (x % 2 ^ 32).toNat

/-- The cast to `uint16_t`. -/
def to_uint16 (x : Int) : Nat := (x % 2 ^ 16).toNat

/-- The cast to `uint8_t`. -/
def to_uint8 (x : Int) : Nat := (x % 2 ^ 8).toNat

/-- Perform one library call: take the next reply and log the call. -/
def lib (c : Call) (g : State) : Reply × State :=
  (g.replies 0,
   { g with
     replies := fun i => g.replies (i + 1)
     trace := g.trace ++ [Event.call c (g.replies 0)] })

/-- The colour helper `p_printf`: with `NoColor` set the output is always WHITE. -/
def p_printf (level : Nat) (format : String) (args : List Arg) (g : State) : State :=
  { g with trace := g.trace ++ [Event.p_printf (if g.NoColor then WHITE else level) format args] }

/-- Plain `printf`. -/
def printf (format : String) (args : List Arg) (g : State) : State :=
  { g with trace := g.trace ++ [Event.printf format args] }

/-- The call `sleep(seconds)`. -/
def sleep (seconds : Nat) (g : State) : State :=
  { g with trace := g.trace ++ [Event.sleep seconds] }

/-- The function `get_time_stamp` (svm30.cpp 211-230): what it writes into its
buffer is the next reading of the clock. -/
def get_time_stamp (g : State) : String × State :=
  (g.clock 0, { g with clock := fun i => g.clock (i + 1) })

/-! ## `set_baseline` and `do_humidityComp` -/

/-- Lines 475-483 of `set_baseline`: the TVOC write and the reset of the flag. -/
def set_baseline_tvoc (svm : svm_par) (g : State) : Bool × svm_par × State :=
  if svm.baselineTVOC > 0 then
    let (r, g) := lib (Call.SetBaseLine_TVOC svm.baselineTVOC) g
    if !r.ok then
      (false, svm, p_printf RED "Error during getting Setbaseline TVOC\n" [] g)
    else
      (true, { svm with setBaseline := false }, g)
  else
    (true, { svm with setBaseline := false }, g)

/-- The function `set_baseline` (svm30.cpp 456-484). -/
def set_baseline (svm : svm_par) (g : State) : Bool × svm_par × State :=
  let (r, g) := lib Call.GetBaseLine_TVOC g
  let baseline := r.baseline
  if !r.ok then
    (false, svm, p_printf RED "Error during reading baseline\n" [] g)
  else if baseline == 0 then
    (true, svm, g)
  else if svm.baselineCo2 > 0 then
    let (r, g) := lib (Call.SetBaseLine_CO2 svm.baselineCo2) g
    if !r.ok then
      (false, svm, p_printf RED "Error during getting Setbaseline CO2\n" [] g)
    else
      set_baseline_tvoc svm g
  else
    set_baseline_tvoc svm g

/-- The function `do_humidityComp` (svm30.cpp 490-501). -/
def do_humidityComp (svm : svm_par) (g : State) : Bool × State :=
  if !svm.humComp then (true, g)
  else
    let (r, g) := lib (Call.SetHumidity svm.v.absolute_hum) g
    if !r.ok then
      (false, p_printf RED "Error during setting humidity compensation\n" [] g)
    else
      (true, g)

/-! ## `do_output` and `disp_dev` -/

/-- Lines 339-342 of `do_output`: the time stamp. -/
def do_output_timestamp (svm : svm_par) (g : State) : State :=
  if svm.timestamp then
    let (buf, g) := get_time_stamp g
    p_printf YELLOW "%s\n" [Arg.str buf] g
  else g

/-- Lines 345-348 of `do_output`: CO2 and TVOC. -/
def do_output_AirQual (svm : svm_par) (output : Bool) (g : State) : Bool × State :=
  if svm.AirQual then
    (true, p_printf GREEN "CO2 equivalent\t\t%-5d\t\tTVOC\t\t%-5d\n"
      [Arg.num svm.v.CO2eq, Arg.num svm.v.TVOC] g)
  else (output, g)

/-- Lines 350-353 of `do_output`: the raw signals.  The call passes three
values after the format: the text "H2 signal", `H2_signal`, `Ethanol_signal`. -/
def do_output_raw (svm : svm_par) (output : Bool) (g : State) : Bool × State :=
  if svm.raw then
    (true, p_printf GREEN "H2 signal\t\t0x%-4X\t\tEthanol signal\t0x%-4X\n"
      [Arg.str "H2 signal", Arg.num svm.v.H2_signal, Arg.num svm.v.Ethanol_signal] g)
  else (output, g)

/-- Lines 359-363 of `do_output`: humidity and temperature. -/
def do_output_HumTemp (svm : svm_par) (buf0 : Char) (output : Bool) (g : State) :
    Bool × State :=
  if svm.HumTemp then
    (true, p_printf GREEN "Humidity\t\t%-6.2f%%\t\tTemperature\t%-2.2f %c\n"
      [Arg.fdiv svm.v.humidity 1000, Arg.fdiv svm.v.temperature 1000, Arg.chr buf0] g)
  else (output, g)

/-- Lines 365-369 of `do_output`: the dew point. -/
def do_output_DewPoint (svm : svm_par) (buf0 : Char) (output : Bool) (g : State) :
    Bool × State :=
  if svm.DewPoint then
    (true, p_printf GREEN "DewPoint\t\t%-2.2f %c\n"
      [Arg.flt svm.v.dew_point, Arg.chr buf0] g)
  else (output, g)

/-- Lines 371-375 of `do_output`: the heat index. -/
def do_output_HeatInd (svm : svm_par) (buf0 : Char) (output : Bool) (g : State) :
    Bool × State :=
  if svm.HeatInd then
    (true, p_printf GREEN "Heat index\t\t%-2.2f %c\n"
      [Arg.flt svm.v.heat_index, Arg.chr buf0] g)
  else (output, g)

/-- Lines 377-381 of `do_output`: the absolute humidity. -/
def do_output_AbsHum (svm : svm_par) (output : Bool) (g : State) : Bool × State :=
  if svm.AbsHum then
    (true, p_printf GREEN "Absolute Humidity\t%-2.2f %%\n" [Arg.flt svm.v.absolute_hum] g)
  else (output, g)

/-- Lines 383-390 of `do_output`: the baselines, read from the sensor. -/
def do_output_DispBaseline (svm : svm_par) (output : Bool) (g : State) : Bool × State :=
  if svm.DispBaseline then
    let (r, g) := lib Call.GetBaseLines g
    let baseline := r.baselines
    if r.ok then
      (true, p_printf GREEN "TVOC baseline\t\t0x%-04X\t\tCO2 Baseline\t0x%-04X\n"
        [Arg.num (baseline >>> 16 : Nat), Arg.num (baseline &&& 0xffff : Nat)] g)
    else (output, g)
  else (output, g)

/-- Lines 396-397 of `do_output`: the closing line. -/
def do_output_end (output : Bool) (g : State) : State :=
  if output then p_printf WHITE "\n" [] g
  else p_printf RED "Nothing selected to display \n" [] g

/-- The function `do_output` (svm30.cpp 333-398): its blocks in order, the
local `output` handed from one to the next. -/
def do_output (svm : svm_par) (g : State) : State :=
  let output := false
  let g := do_output_timestamp svm g
  let (output, g) := do_output_AirQual svm output g
  let (output, g) := do_output_raw svm output g
  let buf0 : Char := if svm.tempCel then 'C' else 'F'
  let (output, g) := do_output_HumTemp svm buf0 output g
  let (output, g) := do_output_DewPoint svm buf0 output g
  let (output, g) := do_output_HeatInd svm buf0 output g
  let (output, g) := do_output_AbsHum svm output g
  let (output, g) := do_output_DispBaseline svm output g
  do_output_end output g

/-- The function `disp_dev` (svm30.cpp 404-436). -/
def disp_dev (_svm : svm_par) (g : State) : Nat × State :=
  let (r, g) := lib Call.GetDriverVersion g
  let g := p_printf YELLOW "Driver info : %s\n" [Arg.str r.text] g
  let (r, g) := lib (Call.GetId SGP30) g
  if !r.ok then
    (ERR_PROTOCOL, p_printf RED "Error during getting SGP30 ID number\n" [] g)
  else
    let g := p_printf YELLOW "SGP30 ID : 0x%04X %04X %04X\n"
      [Arg.num r.id0, Arg.num r.id1, Arg.num r.id2] g
    let (r, g) := lib (Call.GetId SHTC1) g
    if !r.ok then
      (ERR_PROTOCOL, p_printf RED "Error during getting SHTC1 ID number\n" [] g)
    else
      let g := p_printf YELLOW "SHTC1 ID : 0x%04X\n" [Arg.num (r.id0 &&& 0x3f : Nat)] g
      let (r, g) := lib Call.GetFeatureSet g
      if !r.ok then
        (ERR_PROTOCOL, p_printf RED "Error during getting feature set\n" [] g)
      else
        let g := p_printf YELLOW "SGP30 product ID : 0x%02X, feature set 0x%2X\n"
          [Arg.num (r.feature0 &&& 0x3f : Nat), Arg.num r.feature1] g
        (ERR_OK, g)

/-! ## `main_loop` -/

/-- The delay loop `while (wait--) { sleep(1); TriggerSGP30 }` (svm30.cpp
557-563).  The boolean is `false` when the `return` of line 561 was taken. -/
def delay_loop : Nat → State → Bool × State
  | 0, g => (true, g)
  | wait + 1, g =>
    let g := sleep 1 g
    let (r, g) := lib Call.TriggerSGP30 g
    if !r.ok then
      (false, p_printf RED "Error during loop delay\n" [] g)
    else
      delay_loop wait g

/-- How one pass through the body of the measurement loop ends. -/
inductive Step where
  | next (loop_set : Int) (svm : svm_par) (g : State)
  | ret (svm : svm_par) (g : State)

/-- Lines 544-566: the part of the loop body after the baseline request. -/
def main_loop_measure (loop_set : Int) (svm : svm_par) (g : State) : Step :=
  let (r, g) := lib (Call.GetValues svm.raw) g
  let svm := { svm with v := r.values }
  if r.ok then
    let g := do_output svm g
    let (ok, g) := do_humidityComp svm g
    if !ok then Step.ret svm g
    else
      let wait := to_uint8 svm.loop_delay
      let (ok, g) := delay_loop wait g
      if !ok then Step.ret svm g
      else
        let loop_set := if svm.loop_count > 0 then loop_set - 1 else loop_set
        Step.next loop_set svm g
  else
    Step.ret svm (p_printf RED "failed get values from SVM30\n" [] g)

/-- The body of `while (loop_set > 0)` (svm30.cpp 534-566). -/
def main_loop_body (loop_set : Int) (svm : svm_par) (g : State) : Step :=
  if svm.setBaseline then
    let (ok, svm, g) := set_baseline svm g
    if !ok then Step.ret svm g
    else main_loop_measure loop_set svm g
  else
    main_loop_measure loop_set svm g

/-- How a run of `main_loop` stands: it returned, or the budget of loop
iterations was used up with the loop still going (at the loop head). -/
inductive Run where
  | returned (svm : svm_par) (g : State)
  | running (loop_set : Int) (svm : svm_par) (g : State)

/-- The loop `while (loop_set > 0)` with the statement after it (svm30.cpp
532-569), for at most `fuel` iterations. -/
def main_loop_while : Nat → Int → svm_par → State → Run
  | fuel, loop_set, svm, g =>
    if loop_set > 0 then
      match fuel with
      | 0 => Run.running loop_set svm g
      | fuel + 1 =>
        match main_loop_body loop_set svm g with
        | Step.ret svm g => Run.returned svm g
        | Step.next loop_set svm g => main_loop_while fuel loop_set svm g
    else
      Run.returned svm
        (printf "Reached the loopcount of %d.\nclosing down\n" [Arg.num svm.loop_count] g)

/-- Lines 518-525 of `main_loop`: the measurement test, when requested. -/
def main_loop_test (svm : svm_par) (g : State) : State :=
  if svm.measure then
    let (r, g) := lib Call.MeasureTest g
    if r.ok then p_printf BLUE "MeasureTest completed\n" [] g
    else p_printf RED "MeasureTest failed\\n" [] g
  else g

/-- The function `main_loop` (svm30.cpp 506-570), for at most `fuel` iterations
of the measurement loop. -/
def main_loop (fuel : Nat) (svm : svm_par) (g : State) : Run :=
  let (e, g) := disp_dev svm g
  if e != ERR_OK then Run.returned svm g
  else if svm.dev_info_only then Run.returned svm g
  else
    let g := p_printf GREEN "Starting SVM30 measurement:\n" [] g
    let g := main_loop_test svm g
    let loop_set : Int := if svm.loop_count > 0 then svm.loop_count else 1
    main_loop_while fuel loop_set svm g

/-! ## Start-up: `init_variables`, `usage`, `parse_cmdline`, `init_hw`, `main` -/

/-- The function `init_variables` (svm30.cpp 236-266); the sample `v` is not touched. -/
def init_variables (svm : svm_par) : svm_par :=
  { svm with
    baselineCo2 := 0
    baselineTVOC := 0
    setBaseline := false
    dev_info_only := false
    measure := false
    loop_count := 10
    loop_delay := 5
    timestamp := false
    verbose := false
    raw := false
    humComp := false
    AirQual := true
    HumTemp := true
    DispBaseline := false
    DewPoint := false
    AbsHum := false
    HeatInd := false
    tempCel := true }

/-- A function that either returns normally or ends the program with `exit`. -/
inductive Ctl (α : Type) where
  | ok (a : α) (g : State)
  | exit (status : Nat) (g : State)

/-- The format of the help text of `usage` (build without SDS011). -/
def usage_format : String :=
  "%s [options]  (version %s) \n\n" ++
  "SVM30 settings: \n" ++
  "-c 0x# set baseline CO2  to ####\n" ++
  "-t 0x# set baseline TVOC to ####\n" ++
  "-h     continued humidity compensation          (default %s)\n" ++
  "-m     perform a measurement test               (default %s)\n" ++
  "\nprogram control settings\n" ++
  "-d     display ID-numbers and feature set only\n" ++
  "-l #   number of measurements (0 = endless)     (default %d)\n" ++
  "-w #   wait-time (seconds) between measurements (default %d)\n" ++
  "-v     include verbose / debug information      (default %s)\n" ++
  "\noutput formatting\n" ++
  "-D     do not display output in color           (default %s)\n" ++
  "-T     add / remove timestamp                   (default %s)\n" ++
  "-H     add / remove humidity & temperature      (default %s)\n" ++
  "-A     add / remove CO2 / TVOC info             (default %s)\n" ++
  "-B     add / remove baseline info               (default %s)\n" ++
  "-R     add / remove H2 and Ethanol signals      (default %s)\n" ++
  "-E     add / remove Dew point calculation       (default %s)\n" ++
  "-J     add / remove Absolute Humidity calc      (default %s)\n" ++
  "-G     add / remove HeatIndex calc              (default %s)\n" ++
  "-F     Display temperature (Fahrenheit/Celsius) (default %s)\n"

/-- The function `usage` (svm30.cpp 576-626). -/
def usage (svm : svm_par) (g : State) : svm_par × State :=
  let svm := init_variables svm
  (svm, printf usage_format
    [Arg.str g.progname, Arg.str version,
     Arg.str (if svm.humComp then "enabled" else "disabled"),
     Arg.str (if svm.measure then "enabled" else "disabled"),
     Arg.num svm.loop_count, Arg.num svm.loop_delay,
     Arg.str (if svm.verbose then "added" else "removed"),
     Arg.str (if g.NoColor then "No color" else "color"),
     Arg.str (if svm.timestamp then "added" else "removed"),
     Arg.str (if svm.HumTemp then "added" else "removed"),
     Arg.str (if svm.AirQual then "added" else "removed"),
     Arg.str (if svm.DispBaseline then "added" else "removed"),
     Arg.str (if svm.raw then "added" else "removed"),
     Arg.str (if svm.DewPoint then "added" else "removed"),
     Arg.str (if svm.AbsHum then "added" else "removed"),
     Arg.str (if svm.HeatInd then "added" else "removed"),
     Arg.str (if svm.tempCel then "Celcius" else "Fahrenheit")] g)

/-- The function `parse_cmdline` (svm30.cpp 635-748): `opt` is the option
character, `option` its argument text. -/
def parse_cmdline (opt : Char) (option : String) (svm : svm_par) (g : State) : Ctl svm_par :=
  match opt with
  | 'm' => Ctl.ok { svm with measure := true } g
  | 'c' =>
    let svm := { svm with baselineCo2 := to_uint16 (to_uint32 (g.strtod option)) }
    let svm := { svm with setBaseline := true }
    if svm.baselineCo2 == 0 then
      Ctl.exit EXIT_FAILURE (p_printf RED "Incorrect baseline Co2. Must be positive\n" [] g)
    else Ctl.ok svm g
  | 't' =>
    let svm := { svm with baselineTVOC := to_uint16 (to_uint32 (g.strtod option)) }
    let svm := { svm with setBaseline := true }
    if svm.baselineTVOC == 0 then
      Ctl.exit EXIT_FAILURE (p_printf RED "Incorrect baseline TVOC. Must be positive\n" [] g)
    else Ctl.ok svm g
  | 'h' => Ctl.ok { svm with humComp := true } g
  | 'd' => Ctl.ok { svm with dev_info_only := true } g
  | 'A' => Ctl.ok { svm with AirQual := !svm.AirQual } g
  | 'E' => Ctl.ok { svm with DewPoint := !svm.DewPoint } g
  | 'J' => Ctl.ok { svm with AbsHum := !svm.AbsHum } g
  | 'G' => Ctl.ok { svm with HeatInd := !svm.HeatInd } g
  | 'F' => Ctl.ok { svm with tempCel := !svm.tempCel } g
  | 'H' => Ctl.ok { svm with HumTemp := !svm.HumTemp } g
  | 'B' => Ctl.ok { svm with DispBaseline := !svm.DispBaseline } g
  | 'R' => Ctl.ok { svm with raw := !svm.raw } g
  | 'D' => Ctl.ok svm { g with NoColor := true }
  | 'l' =>
    let svm := { svm with loop_count := to_uint16 (g.strtod option) }
    if svm.loop_delay == 0 then
      Ctl.ok svm (p_printf GREEN "Endless loop selected\n" [] g)
    else Ctl.ok svm g
  | 'w' =>
    let svm := { svm with loop_delay := to_uint16 (g.strtod option) }
    if svm.loop_delay == 0 then
      Ctl.exit EXIT_FAILURE
        (p_printf RED "Incorrect loop delay. Must be larger than zero\n" [] g)
    else Ctl.ok svm g
  | 'T' => Ctl.ok { svm with timestamp := !svm.timestamp } g
  | 'v' => Ctl.ok { svm with verbose := !svm.verbose } g
  | 'S' => Ctl.ok svm (p_printf RED "SDS011 is not supported in this build\n" [] g)
  | _ =>
    let (_, g) := usage svm g
    Ctl.exit EXIT_FAILURE g

/-- The loop `while ((opt = getopt(...)) != -1) parse_cmdline(...)` of `main`,
over the options that `getopt` yields. -/
def parse_options : List (Char × String) → svm_par → State → Ctl svm_par
  | [], svm, g => Ctl.ok svm g
  | (opt, optarg) :: rest, svm, g =>
    match parse_cmdline opt optarg svm g with
    | Ctl.ok svm g => parse_options rest svm g
    | Ctl.exit status g => Ctl.exit status g

/-- The function `init_hw` (svm30.cpp 272-298, build without SDS011). -/
def init_hw (svm : svm_par) (g : State) : Ctl Unit :=
  let (_, g) := lib (Call.EnableDebugging svm.verbose) g
  let (_, g) := lib (Call.SetTempCelsius svm.tempCel) g
  let (r, g) := lib Call.begin g
  if !r.ok then
    Ctl.exit EXIT_FAILURE (p_printf RED "Error during setting I2C\n" [] g)
  else Ctl.ok () g

/-- The function `closeout` (svm30.cpp 156-166); it always ends the program. -/
def closeout (g : State) : Nat × State :=
  let (_, g) := lib Call.close g
  (EXIT_SUCCESS, g)

/-- How a run of the program stands: ended with an exit status, or still in
the measurement loop when the budget of iterations was used up. -/
inductive Final where
  | exit (status : Nat) (g : State)
  | running (loop_set : Int) (svm : svm_par) (g : State)

/-- The function `main` (svm30.cpp 753-784): `euid` is the result of
`geteuid()`, `argv0` the program name, `opts` the options as `getopt` yields
them, `svm` the contents of the uninitialised local. -/
def main (fuel : Nat) (euid : Nat) (argv0 : String) (opts : List (Char × String))
    (svm : svm_par) (g : State) : Final :=
  if euid != 0 then
    Final.exit EXIT_FAILURE (p_printf RED "You must be super user\n" [] g)
  else
    let g := { g with progname := argv0.take 20 }
    let svm := init_variables svm
    match parse_options opts svm g with
    | Ctl.exit status g => Final.exit status g
    | Ctl.ok svm g =>
      match init_hw svm g with
      | Ctl.exit status g => Final.exit status g
      | Ctl.ok _ g =>
        match main_loop fuel svm g with
        | Run.running loop_set svm g => Final.running loop_set svm g
        | Run.returned _ g =>
          let (status, g) := closeout g
          Final.exit status g

/-! ## Reading a trace -/

/-- The library calls of a trace, in order. -/
def callsOf : List Event → List Call
  | [] => []
  | Event.call c _ :: es => c :: callsOf es
  | _ :: es => callsOf es

/-- Calls that only configure or query the driver object and do not address
the sensor: `EnableDebugging`, `SetTempCelsius`, `GetDriverVersion`. -/
def Call.driverOnly : Call → Bool
  | Call.EnableDebugging _ => true
  | Call.SetTempCelsius _ => true
  | Call.GetDriverVersion => true
  | _ => false

/-- The sensor operations of a trace, in order. -/
def sensorOps (es : List Event) : List Call :=
  (callsOf es).filter (fun c => !c.driverOnly)

/-- The events appended to the trace between state `g` and a later state `g'`. -/
def issued (g g' : State) : List Event :=
  g'.trace.drop g.trace.length

/-- The state in which a pass through the loop body ends. -/
def Step.state : Step → State
  | Step.next _ _ g => g
  | Step.ret _ g => g

/-- The parameters with which a pass through the loop body ends. -/
def Step.par : Step → svm_par
  | Step.next _ svm _ => svm
  | Step.ret svm _ => svm

/-- Whether a call is `SetBaseLine_CO2` or `SetBaseLine_TVOC`. -/
def Call.isSetBaseLine : Call → Bool
  | Call.SetBaseLine_CO2 _ => true
  | Call.SetBaseLine_TVOC _ => true
  | _ => false

/-- The state `g` with the trace `p` put in front of its own. -/
def State.after (p : List Event) (g : State) : State :=
  { g with trace := p ++ g.trace }

/-- The state `g` with an empty trace. -/
def State.fresh (g : State) : State :=
  { g with trace := [] }

/-- A pass through the loop body, with the trace `p` put in front. -/
def Step.after (p : List Event) : Step → Step
  | Step.next loop_set svm g => Step.next loop_set svm (g.after p)
  | Step.ret svm g => Step.ret svm (g.after p)

/-- The state in which a run of `main_loop` stands. -/
def Run.state : Run → State
  | Run.returned _ g => g
  | Run.running _ _ g => g

/-- The parameters with which a run of `main_loop` stands. -/
def Run.par : Run → svm_par
  | Run.returned svm _ => svm
  | Run.running _ svm _ => svm

/-- Whether `main_loop` has returned. -/
def Run.isReturned : Run → Bool
  | Run.returned _ _ => true
  | Run.running _ _ _ => false

/-- A run of `main_loop`, with the trace `p` put in front. -/
def Run.after (p : List Event) : Run → Run
  | Run.returned svm g => Run.returned svm (g.after p)
  | Run.running loop_set svm g => Run.running loop_set svm (g.after p)

/-- The events of a trace that the statements below count: a library call
(without its reply), a `sleep`, the closing line of `do_output`, or a plain
`printf` (with its format). -/
inductive Mark where
  | call (c : Call)
  | sleep (seconds : Nat)
  | output
  | printf (format : String)
  deriving DecidableEq, Repr

/-- The mark of an event, if it has one.  The closing line of `do_output`
(svm30.cpp 396-397) is printed once by every call of `do_output` and by
nothing else; all other printing has no mark. -/
def Event.mark : Event → Option Mark
  | Event.call c _ => some (Mark.call c)
  | Event.sleep seconds => some (Mark.sleep seconds)
  | Event.p_printf _ format _ =>
    if format == "\n" || format == "Nothing selected to display \n" then some Mark.output
    else none
  | Event.printf format _ => some (Mark.printf format)

/-- The marks of a trace, in order. -/
def outline (es : List Event) : List Mark :=
  es.filterMap Event.mark

/-- The number of `GetValues` calls in a trace. -/
def GetValues_calls (es : List Event) : Nat :=
  (outline es).countP fun m => m == Mark.call (Call.GetValues true)
    || m == Mark.call (Call.GetValues false)

/-- The number of `do_output` calls in a trace, counted by their closing lines. -/
def do_output_calls (es : List Event) : Nat :=
  (outline es).count Mark.output

/-- The number of times the message that closes `main_loop` (svm30.cpp 569)
is printed in a trace. -/
def loopcount_messages (es : List Event) : Nat :=
  (outline es).count (Mark.printf "Reached the loopcount of %d.\nclosing down\n")

/-- The number of one-second sleeps in a trace. -/
def sleeps (es : List Event) : Nat :=
  (outline es).count (Mark.sleep 1)

/-- The outline of one turn of the delay loop: a one-second sleep, then the trigger. -/
def delay_turn : List Mark :=
  [Mark.sleep 1, Mark.call Call.TriggerSGP30]

/-- The outline of `n` turns of the delay loop. -/
def delay_turns : Nat → List Mark
  | 0 => []
  | n + 1 => delay_turn ++ delay_turns n

/-- A reply that reports success, with the given baseline and sample. -/
def Reply.success (baseline : Nat) (values : svm_values) : Reply :=
  { ok := true, id0 := 0, id1 := 0, id2 := 0, feature0 := 0, feature1 := 0,
    baseline := baseline, baselines := 0, values := values, text := "" }

/-- A reply that reports failure. -/
def Reply.failure : Reply :=
  { ok := false, id0 := 0, id1 := 0, id2 := 0, feature0 := 0, feature1 := 0,
    baseline := 0, baselines := 0, values := default, text := "" }

/-- The state at program start, for a given sequence of replies. -/
def State.start (replies : Nat → Reply) : State :=
  { NoColor := false, progname := "", replies := replies, clock := fun _ => "",
    strtod := fun _ => 0, trace := [] }

/-- A run in which every library call succeeds, the baseline reads as
`baseline` and every sample is the default one. -/
def State.healthy (baseline : Nat) : State :=
  State.start fun _ => Reply.success baseline default

/-- The default parameters, as `init_variables` sets them. -/
def svm_par.defaults : svm_par :=
  init_variables default

/-- Every library call still to come succeeds. -/
def AllOk (g : State) : Prop :=
  ∀ i, (g.replies i).ok = true

/-- The replies still to come in `g'` are those of `g` after some more calls. -/
def Later (g g' : State) : Prop :=
  ∃ k, ∀ i, g'.replies i = g.replies (i + k)

/-- The outline of the part of a measurement cycle from `GetValues` on, when
every call succeeds: the sample is read and displayed, the humidity
compensation is set when selected, and the delay loop makes `wait` turns. -/
def measure_outline (svm : svm_par) (absolute_hum : CFloat) (wait : Nat) : List Mark :=
  Mark.call (Call.GetValues svm.raw) ::
    ((if svm.DispBaseline then [Mark.call Call.GetBaseLines] else []) ++ [Mark.output]) ++
    (if svm.humComp then [Mark.call (Call.SetHumidity absolute_hum)] else []) ++
    delay_turns wait

/-- The library calls `disp_dev` makes when none fails. -/
def disp_dev_calls : List Call :=
  [Call.GetDriverVersion, Call.GetId SGP30, Call.GetId SHTC1, Call.GetFeatureSet]

/-- The state in which a function that may `exit` ends. -/
def Ctl.state {α : Type} : Ctl α → State
  | Ctl.ok _ g => g
  | Ctl.exit _ g => g

/-- The state in which a run of the program stands. -/
def Final.state : Final → State
  | Final.exit _ g => g
  | Final.running _ _ g => g

/-- The library calls of `init_hw`, for given parameters. -/
def init_hw_calls (svm : svm_par) : List Call :=
  [Call.EnableDebugging svm.verbose, Call.SetTempCelsius svm.tempCel, Call.begin]

/-- The state `g` with the `i`-th reply still to come replaced by `r`. -/
def State.answering (g : State) (i : Nat) (r : Reply) : State :=
  { g with replies := fun j => if j = i then r else g.replies j }

/-- A run in which `begin`, the third library call, fails and every other
call succeeds. -/
def State.begin_fails : State :=
  State.start fun i => if i = 2 then Reply.failure else Reply.success 1 default

/-- The library call of a mark, if it is one. -/
def Mark.toCall : Mark → Option Call
  | Mark.call c => some c
  | _ => none

/-- The arguments of the `SetHumidity` calls of a trace, in order. -/
def humidity_calls (es : List Event) : List CFloat :=
  (outline es).filterMap fun m =>
    match m with
    | Mark.call (Call.SetHumidity h) => some h
    | _ => none

/-- The `GetValues` calls of a trace, in order: the `raw` argument and the reply. -/
def samples : List Event → List (Bool × Reply)
  | [] => []
  | Event.call (Call.GetValues raw) r :: es => (raw, r) :: samples es
  | _ :: es => samples es

/-- The request for a baseline is well formed: it names a positive baseline. -/
def baseline_request_positive (svm : svm_par) : Prop :=
  svm.setBaseline = true → svm.baselineCo2 > 0 ∨ svm.baselineTVOC > 0

/-- A `strtod` that reads every text as the number `v`. -/
def State.reading (v : Int) : State :=
  { State.start (fun _ => Reply.success 1 default) with strtod := fun _ => v }

/-- The replies of the library calls of a trace, in order. -/
def repliesOf : List Event → List Reply
  | [] => []
  | Event.call _ r :: es => r :: repliesOf es
  | _ :: es => repliesOf es

/-- A run in which the baseline reads as `baseline` and the `i`-th library
call fails, all others succeeding. -/
def State.failing (baseline i : Nat) : State :=
  State.start fun j => if j = i then Reply.failure else Reply.success baseline default

/-- Whether a mark is a call of `SetBaseLine_CO2`. -/
def Mark.isWriteCO2 : Mark → Bool
  | Mark.call (Call.SetBaseLine_CO2 _) => true
  | _ => false

/-- Whether a mark is a call of `SetBaseLine_TVOC`. -/
def Mark.isWriteTVOC : Mark → Bool
  | Mark.call (Call.SetBaseLine_TVOC _) => true
  | _ => false

/-- The number of `SetBaseLine_CO2` calls in a trace. -/
def writes_CO2 (es : List Event) : Nat :=
  (outline es).countP Mark.isWriteCO2

/-- The number of `SetBaseLine_TVOC` calls in a trace. -/
def writes_TVOC (es : List Event) : Nat :=
  (outline es).countP Mark.isWriteTVOC

/-- The number of baseline writes a pass through the loop body may still be
followed by: one if the pass goes on with the request pending, none otherwise. -/
def Step.pending : Step → Nat
  | Step.next _ svm _ => svm.setBaseline.toNat
  | Step.ret _ _ => 0

/-! ## How `printf` binds values to conversions -/

/-- Whether a character ends a conversion specification of a `printf` format. -/
def isConversion (c : Char) : Bool :=
  c == 'd' || c == 'i' || c == 'u' || c == 'o' || c == 'x' || c == 'X' || c == 'c'
    || c == 's' || c == 'f' || c == 'e' || c == 'g' || c == 'p'

/-- Scan a format for its conversion specifications.  `text` is the plain text
read since the last conversion (in reverse), `spec` the conversion being read
(in reverse), if any.  Each conversion is listed with the text printed just
before it; `%%` is plain text. -/
def conversions_from : List Char → List Char → Option (List Char) → List (String × String)
  | [], _, _ => []
  | c :: cs, text, none =>
    if c == '%' then conversions_from cs text (some ['%'])
    else conversions_from cs (c :: text) none
  | c :: cs, text, some spec =>
    if c == '%' && spec == ['%'] then conversions_from cs ('%' :: text) none
    else if isConversion c then
      (String.mk text.reverse, String.mk (c :: spec).reverse) :: conversions_from cs [] none
    else conversions_from cs text (some (c :: spec))

/-- The conversion specifications of a `printf` format, in order, each with
the text printed just before it. -/
def conversions (format : String) : List (String × String) :=
  conversions_from format.toList [] none

/-- The values `printf` prints: the `n`-th conversion of the format takes the
`n`-th value passed after the format; values beyond the last conversion are
not printed. -/
def printf_binding (format : String) (args : List Arg) : List ((String × String) × Arg) :=
  (conversions format).zip args

/-! ## The library functions `CalcCrC` and `shtc1_conv`

Both are declared in `svm30lib.h`; their bodies are in `svm30lib.cpp`, which
is not among the sources. -/

/-- Modelled from the spec: one turn of the shift register of `SVM30::CalcCrC`
(svm30lib.h 368; the body is in the missing svm30lib.cpp).  The spec gives a
CRC-8 with polynomial 0x31: the 8-bit register is shifted left by one bit, and
the polynomial is added when the bit shifted out is set. -/
def CalcCrC_bit (crc : Nat) : Nat :=
  if crc &&& 0x80 ≠ 0 then ((crc <<< 1) ^^^ 0x31) % 256 else (crc <<< 1) % 256

/-- Modelled from the spec: what `SVM30::CalcCrC` (body missing) does with one
byte of the word: the byte is added to the register, which is then shifted
eight times. -/
def CalcCrC_byte (crc byte : Nat) : Nat :=
  CalcCrC_bit^[8] (crc ^^^ byte)

/-- Modelled from the spec: `SVM30::CalcCrC(uint8_t data[2])`, declared in
svm30lib.h (line 368), body in the missing svm30lib.cpp.  The spec: "a CRC-8
with polynomial 0x31, initial value 0xFF, computed over the two bytes of the
word (MSB then LSB), applied independently to each word". -/
def CalcCrC (data0 data1 : Nat) : Nat :=
  CalcCrC_byte (CalcCrC_byte 0xFF data0) data1

/-- The remainder of a polynomial over GF(2) on division by `poly`, of degree
8, by long division: bit `i` of a number is the coefficient of `x^i`, and the
dividend `n` has degree below `k + 8`. -/
def gf2_mod (poly : Nat) : Nat → Nat → Nat
  | 0, n => n
  | k + 1, n => gf2_mod poly k (if n.testBit (k + 8) then n ^^^ (poly <<< k) else n)

/-- The reference CRC-8 of the spec, for one more byte: the register and the
byte are added, multiplied by `x^8` and reduced modulo the generator
`x^8 + x^5 + x^4 + 1` (0x31 with the leading term). -/
def crc8_reference_byte (crc byte : Nat) : Nat :=
  gf2_mod 0x131 8 ((crc ^^^ byte) <<< 8)

/-- The reference CRC-8 of the spec over the two bytes of a word, MSB then
LSB, from the initial value 0xFF. -/
def crc8_reference (msb lsb : Nat) : Nat :=
  crc8_reference_byte (crc8_reference_byte 0xFF msb) lsb

/-- Modelled from the spec: `SVM30::shtc1_conv(temperature, humidity, temp,
hum)`, declared in svm30lib.h (line 400), body in the missing svm30lib.cpp.
The spec: "humidity = raw_humidity × 1000 / 65536", "temperature =
raw_temperature × 175000 / 65536 − 45000", as scaled integers.  The result is
the pair (temperature, humidity). -/
def shtc1_conv (temp hum : Nat) : Int × Int :=
  ((temp : Int) * 175000 / 65536 - 45000, (hum : Int) * 1000 / 65536)

/-- The number that a value passed as `(float) n / d` stands for: the
quotient, before the rounding of the `float` and of the conversion. -/
def Arg.quotient : Arg → Option ℚ
  | Arg.fdiv n d => some ((n : ℚ) / (d : ℚ))
  | _ => none

/-! # Theorems -/

/-! ## Traces -/

@[simp] theorem callsOf_append (xs ys : List Event) :
    callsOf (xs ++ ys) = callsOf xs ++ callsOf ys := by
  induction xs with
  | nil => rfl
  | cons e es ih => cases e <;> simp [callsOf, ih]

@[simp] theorem issued_self (g : State) : issued g g = [] := by
  simp [issued]

theorem issued_append (g g' : State) (es : List Event) (h : g'.trace = g.trace ++ es) :
    issued g g' = es := by
  simp [issued, h]

@[simp] theorem after_fresh (g : State) : g.fresh.after g.trace = g := by
  simp [State.after, State.fresh]

@[simp] theorem after_trace (p : List Event) (g : State) :
    (g.after p).trace = p ++ g.trace := rfl

@[simp] theorem after_replies (p : List Event) (g : State) :
    (g.after p).replies = g.replies := rfl

@[simp] theorem after_NoColor (p : List Event) (g : State) :
    (g.after p).NoColor = g.NoColor := rfl

@[simp] theorem after_after (p q : List Event) (g : State) :
    (g.after q).after p = g.after (p ++ q) := by
  simp [State.after]

@[simp] theorem fresh_trace (g : State) : g.fresh.trace = [] := rfl

@[simp] theorem fresh_replies (g : State) : g.fresh.replies = g.replies := rfl

@[simp] theorem fresh_NoColor (g : State) : g.fresh.NoColor = g.NoColor := rfl

@[simp] theorem lib_trace (c : Call) (g : State) :
    (lib c g).2.trace = g.trace ++ [Event.call c (g.replies 0)] := rfl

@[simp] theorem lib_reply (c : Call) (g : State) : (lib c g).1 = g.replies 0 := rfl

@[simp] theorem lib_replies (c : Call) (g : State) (i : Nat) :
    (lib c g).2.replies i = g.replies (i + 1) := rfl

@[simp] theorem lib_NoColor (c : Call) (g : State) : (lib c g).2.NoColor = g.NoColor := rfl

@[simp] theorem p_printf_trace (l : Nat) (f : String) (a : List Arg) (g : State) :
    (p_printf l f a g).trace
      = g.trace ++ [Event.p_printf (if g.NoColor then WHITE else l) f a] := rfl

@[simp] theorem p_printf_replies (l : Nat) (f : String) (a : List Arg) (g : State) :
    (p_printf l f a g).replies = g.replies := rfl

@[simp] theorem p_printf_NoColor (l : Nat) (f : String) (a : List Arg) (g : State) :
    (p_printf l f a g).NoColor = g.NoColor := rfl

@[simp] theorem sleep_trace (n : Nat) (g : State) :
    (sleep n g).trace = g.trace ++ [Event.sleep n] := rfl

@[simp] theorem sleep_replies (n : Nat) (g : State) : (sleep n g).replies = g.replies := rfl

@[simp] theorem sleep_NoColor (n : Nat) (g : State) : (sleep n g).NoColor = g.NoColor := rfl

/-! ### Putting a trace in front commutes with every step of the program -/

@[simp] theorem lib_after (c : Call) (p : List Event) (g : State) :
    lib c (g.after p) = ((lib c g).1, (lib c g).2.after p) := by
  simp [lib, State.after]

@[simp] theorem p_printf_after (l : Nat) (f : String) (a : List Arg) (p : List Event)
    (g : State) : p_printf l f a (g.after p) = (p_printf l f a g).after p := by
  simp [p_printf, State.after]

@[simp] theorem printf_after (f : String) (a : List Arg) (p : List Event) (g : State) :
    printf f a (g.after p) = (printf f a g).after p := by
  simp [printf, State.after]

@[simp] theorem sleep_after (n : Nat) (p : List Event) (g : State) :
    sleep n (g.after p) = (sleep n g).after p := by
  simp [sleep, State.after]

@[simp] theorem get_time_stamp_after (p : List Event) (g : State) :
    get_time_stamp (g.after p) = ((get_time_stamp g).1, (get_time_stamp g).2.after p) := by
  simp [get_time_stamp, State.after]

theorem set_baseline_tvoc_after (svm : svm_par) (p : List Event) (g : State) :
    set_baseline_tvoc svm (g.after p)
      = ((set_baseline_tvoc svm g).1, (set_baseline_tvoc svm g).2.1,
         (set_baseline_tvoc svm g).2.2.after p) := by
  simp only [set_baseline_tvoc, lib_after]
  split <;> (try split) <;> simp

theorem set_baseline_after (svm : svm_par) (p : List Event) (g : State) :
    set_baseline svm (g.after p)
      = ((set_baseline svm g).1, (set_baseline svm g).2.1,
         (set_baseline svm g).2.2.after p) := by
  simp only [set_baseline, lib_after, set_baseline_tvoc_after]
  split <;> (try split) <;> (try split) <;> (try split) <;> simp

theorem do_humidityComp_after (svm : svm_par) (p : List Event) (g : State) :
    do_humidityComp svm (g.after p)
      = ((do_humidityComp svm g).1, (do_humidityComp svm g).2.after p) := by
  simp only [do_humidityComp, lib_after]
  split <;> (try split) <;> simp

theorem do_output_timestamp_after (svm : svm_par) (p : List Event) (g : State) :
    do_output_timestamp svm (g.after p) = (do_output_timestamp svm g).after p := by
  simp only [do_output_timestamp]
  split <;> simp

theorem do_output_AirQual_after (svm : svm_par) (o : Bool) (p : List Event) (g : State) :
    do_output_AirQual svm o (g.after p)
      = ((do_output_AirQual svm o g).1, (do_output_AirQual svm o g).2.after p) := by
  simp only [do_output_AirQual]
  split <;> simp

theorem do_output_raw_after (svm : svm_par) (o : Bool) (p : List Event) (g : State) :
    do_output_raw svm o (g.after p)
      = ((do_output_raw svm o g).1, (do_output_raw svm o g).2.after p) := by
  simp only [do_output_raw]
  split <;> simp

theorem do_output_HumTemp_after (svm : svm_par) (c : Char) (o : Bool) (p : List Event)
    (g : State) :
    do_output_HumTemp svm c o (g.after p)
      = ((do_output_HumTemp svm c o g).1, (do_output_HumTemp svm c o g).2.after p) := by
  simp only [do_output_HumTemp]
  split <;> simp

theorem do_output_DewPoint_after (svm : svm_par) (c : Char) (o : Bool) (p : List Event)
    (g : State) :
    do_output_DewPoint svm c o (g.after p)
      = ((do_output_DewPoint svm c o g).1, (do_output_DewPoint svm c o g).2.after p) := by
  simp only [do_output_DewPoint]
  split <;> simp

theorem do_output_HeatInd_after (svm : svm_par) (c : Char) (o : Bool) (p : List Event)
    (g : State) :
    do_output_HeatInd svm c o (g.after p)
      = ((do_output_HeatInd svm c o g).1, (do_output_HeatInd svm c o g).2.after p) := by
  simp only [do_output_HeatInd]
  split <;> simp

theorem do_output_AbsHum_after (svm : svm_par) (o : Bool) (p : List Event) (g : State) :
    do_output_AbsHum svm o (g.after p)
      = ((do_output_AbsHum svm o g).1, (do_output_AbsHum svm o g).2.after p) := by
  simp only [do_output_AbsHum]
  split <;> simp

theorem do_output_DispBaseline_after (svm : svm_par) (o : Bool) (p : List Event)
    (g : State) :
    do_output_DispBaseline svm o (g.after p)
      = ((do_output_DispBaseline svm o g).1, (do_output_DispBaseline svm o g).2.after p) := by
  simp only [do_output_DispBaseline, lib_after]
  split <;> (try split) <;> simp

theorem do_output_end_after (o : Bool) (p : List Event) (g : State) :
    do_output_end o (g.after p) = (do_output_end o g).after p := by
  simp only [do_output_end]
  split <;> simp

theorem do_output_after (svm : svm_par) (p : List Event) (g : State) :
    do_output svm (g.after p) = (do_output svm g).after p := by
  simp only [do_output, do_output_timestamp_after, do_output_AirQual_after,
    do_output_raw_after, do_output_HumTemp_after, do_output_DewPoint_after,
    do_output_HeatInd_after, do_output_AbsHum_after, do_output_DispBaseline_after,
    do_output_end_after]

theorem disp_dev_after (svm : svm_par) (p : List Event) (g : State) :
    disp_dev svm (g.after p) = ((disp_dev svm g).1, (disp_dev svm g).2.after p) := by
  simp only [disp_dev, lib_after, p_printf_after]
  split <;> (try split) <;> (try split) <;> simp

theorem delay_loop_after (wait : Nat) (p : List Event) (g : State) :
    delay_loop wait (g.after p) = ((delay_loop wait g).1, (delay_loop wait g).2.after p) := by
  induction wait generalizing g with
  | zero => simp [delay_loop]
  | succ n ih =>
    simp only [delay_loop, sleep_after, lib_after]
    split
    · simp
    · exact ih _

theorem main_loop_measure_after (loop_set : Int) (svm : svm_par) (p : List Event)
    (g : State) :
    main_loop_measure loop_set svm (g.after p) = (main_loop_measure loop_set svm g).after p := by
  simp only [main_loop_measure, lib_after, do_output_after, do_humidityComp_after,
    delay_loop_after]
  split <;> (try split) <;> (try split) <;> simp [Step.after]

theorem main_loop_body_after (loop_set : Int) (svm : svm_par) (p : List Event) (g : State) :
    main_loop_body loop_set svm (g.after p) = (main_loop_body loop_set svm g).after p := by
  simp only [main_loop_body, set_baseline_after, main_loop_measure_after]
  split <;> (try split) <;> simp [Step.after]

theorem main_loop_while_after (fuel : Nat) (loop_set : Int) (svm : svm_par)
    (p : List Event) (g : State) :
    main_loop_while fuel loop_set svm (g.after p)
      = (main_loop_while fuel loop_set svm g).after p := by
  induction fuel generalizing loop_set svm g with
  | zero =>
    unfold main_loop_while
    split <;> simp [Run.after]
  | succ n ih =>
    unfold main_loop_while
    split
    · simp only [main_loop_body_after]
      cases h : main_loop_body loop_set svm g with
      | next l s g1 => simp [Step.after, ih]
      | ret s g1 => simp [Step.after, Run.after]
    · simp [Run.after]

theorem main_loop_test_after (svm : svm_par) (p : List Event) (g : State) :
    main_loop_test svm (g.after p) = (main_loop_test svm g).after p := by
  simp only [main_loop_test, lib_after]
  split <;> (try split) <;> simp

theorem main_loop_after (fuel : Nat) (svm : svm_par) (p : List Event) (g : State) :
    main_loop fuel svm (g.after p) = (main_loop fuel svm g).after p := by
  simp only [main_loop, disp_dev_after, p_printf_after, main_loop_test_after,
    main_loop_while_after]
  split
  · simp [Run.after]
  · split <;> simp [Run.after]

@[simp] theorem step_after_state (p : List Event) (s : Step) :
    (s.after p).state = s.state.after p := by
  cases s <;> rfl

@[simp] theorem step_after_par (p : List Event) (s : Step) : (s.after p).par = s.par := by
  cases s <;> rfl

@[simp] theorem run_after_state (p : List Event) (r : Run) :
    (r.after p).state = r.state.after p := by
  cases r <;> rfl

@[simp] theorem run_after_par (p : List Event) (r : Run) : (r.after p).par = r.par := by
  cases r <;> rfl

@[simp] theorem run_after_isReturned (p : List Event) (r : Run) :
    (r.after p).isReturned = r.isReturned := by
  cases r <;> rfl

/-- The events a step of the program appends are those it produces from an
empty trace. -/
theorem issued_eq_fresh (g g' : State) (h : g' = (g'.fresh).after g.trace) :
    issued g g' = g'.fresh.trace := by
  rw [h]; simp [issued]

/-! ### Every step only appends to the trace -/

theorem main_loop_measure_trace (loop_set : Int) (svm : svm_par) (g : State) :
    (main_loop_measure loop_set svm g).state.trace
      = g.trace ++ (main_loop_measure loop_set svm g.fresh).state.trace := by
  have h := main_loop_measure_after loop_set svm g.trace g.fresh
  rw [after_fresh] at h
  rw [h]; simp

theorem main_loop_body_trace (loop_set : Int) (svm : svm_par) (g : State) :
    (main_loop_body loop_set svm g).state.trace
      = g.trace ++ (main_loop_body loop_set svm g.fresh).state.trace := by
  have h := main_loop_body_after loop_set svm g.trace g.fresh
  rw [after_fresh] at h
  rw [h]; simp

theorem set_baseline_trace (svm : svm_par) (g : State) :
    (set_baseline svm g).2.2.trace = g.trace ++ (set_baseline svm g.fresh).2.2.trace := by
  have h := set_baseline_after svm g.trace g.fresh
  rw [after_fresh] at h
  rw [h]; simp

theorem main_loop_trace (fuel : Nat) (svm : svm_par) (g : State) :
    (main_loop fuel svm g).state.trace
      = g.trace ++ (main_loop fuel svm g.fresh).state.trace := by
  have h := main_loop_after fuel svm g.trace g.fresh
  rw [after_fresh] at h
  rw [h]; simp

/-! ## C1, C2: `set_baseline` -/

/-- What `set_baseline` does when the baseline read succeeds with value 0. -/
theorem set_baseline_unsettled (svm : svm_par) (g : State)
    (hok : (g.replies 0).ok = true) (hzero : (g.replies 0).baseline = 0) :
    set_baseline svm g = (true, svm, (lib Call.GetBaseLine_TVOC g).2) := by
  simp [set_baseline, hok, hzero]

/-- The part of the cycle from `GetValues` on never changes the baseline request. -/
theorem main_loop_measure_keeps_request (loop_set : Int) (svm : svm_par) (g : State) :
    (main_loop_measure loop_set svm g).par.setBaseline = svm.setBaseline
    ∧ (main_loop_measure loop_set svm g).par.baselineCo2 = svm.baselineCo2
    ∧ (main_loop_measure loop_set svm g).par.baselineTVOC = svm.baselineTVOC := by
  simp only [main_loop_measure]
  split <;> (try split) <;> (try split) <;> simp [Step.par]

/-- The first thing `set_baseline` does is to read the TVOC baseline. -/
theorem set_baseline_begins_with_read (svm : svm_par) (g : State) :
    ∃ rest, (set_baseline svm g).2.2.trace
      = g.trace ++ Event.call Call.GetBaseLine_TVOC (g.replies 0) :: rest := by
  simp only [set_baseline, set_baseline_tvoc]
  split
  · exact ⟨_, by simp; rfl⟩
  · split
    · exact ⟨[], by simp⟩
    · split
      · split
        · exact ⟨_, by simp; rfl⟩
        · split
          · split
            · exact ⟨_, by simp; rfl⟩
            · exact ⟨_, by simp; rfl⟩
          · exact ⟨_, by simp; rfl⟩
      · split
        · split
          · exact ⟨_, by simp; rfl⟩
          · exact ⟨_, by simp; rfl⟩
        · exact ⟨[], by simp⟩

/-- A pass through the loop body with the request pending begins with the
read of the TVOC baseline. -/
theorem main_loop_body_begins_with_read (loop_set : Int) (svm : svm_par) (g : State)
    (h : svm.setBaseline = true) :
    ∃ rest, issued g (main_loop_body loop_set svm g).state
      = Event.call Call.GetBaseLine_TVOC (g.replies 0) :: rest := by
  obtain ⟨rest, hr⟩ := set_baseline_begins_with_read svm g
  simp only [main_loop_body, h, if_true]
  split
  · refine ⟨rest, issued_append _ _ _ ?_⟩
    simpa [Step.state] using hr
  · refine ⟨rest ++ (main_loop_measure loop_set (set_baseline svm g).2.1
        (set_baseline svm g).2.2.fresh).state.trace, issued_append _ _ _ ?_⟩
    rw [main_loop_measure_trace, hr]
    simp

/-- C1: `set_baseline` defers while the sensor is not settled.  If the read of
the TVOC baseline succeeds and yields 0, `set_baseline` returns true, its only
library call is that read (no `SetBaseLine_CO2`, no `SetBaseLine_TVOC`), and
the parameters, with `setBaseline`, `baselineCo2` and `baselineTVOC`, are left
as they were; in `main_loop`, a pass through the loop body that goes on to the
next pass hands over the request unchanged, and that next pass begins with the
same read again. -/
theorem set_baseline_defers_until_settled (svm : svm_par) (g : State)
    (hok : (g.replies 0).ok = true) (hzero : (g.replies 0).baseline = 0) :
    (set_baseline svm g).1 = true
    ∧ (set_baseline svm g).2.1 = svm
    ∧ callsOf (issued g (set_baseline svm g).2.2) = [Call.GetBaseLine_TVOC]
    ∧ ∀ loop_set l1 svm1 g1, svm.setBaseline = true →
        main_loop_body loop_set svm g = Step.next l1 svm1 g1 →
        svm1.setBaseline = true ∧ svm1.baselineCo2 = svm.baselineCo2
        ∧ svm1.baselineTVOC = svm.baselineTVOC
        ∧ (callsOf (issued g1 (main_loop_body l1 svm1 g1).state)).head?
            = some Call.GetBaseLine_TVOC := by
  have hs := set_baseline_unsettled svm g hok hzero
  refine ⟨by rw [hs], by rw [hs], ?_, ?_⟩
  · rw [hs]
    simp [issued, callsOf]
  · intro loop_set l1 svm1 g1 hset hbody
    have hm : main_loop_body loop_set svm g
        = main_loop_measure loop_set svm (lib Call.GetBaseLine_TVOC g).2 := by
      simp [main_loop_body, hset, hs]
    have hk := main_loop_measure_keeps_request loop_set svm (lib Call.GetBaseLine_TVOC g).2
    rw [← hm, hbody] at hk
    simp only [Step.par] at hk
    obtain ⟨h1, h2, h3⟩ := hk
    have h1' : svm1.setBaseline = true := by rw [h1, hset]
    refine ⟨h1', h2, h3, ?_⟩
    obtain ⟨rest, hr⟩ := main_loop_body_begins_with_read l1 svm1 g1 h1'
    rw [hr]
    simp [callsOf]

/-- No library call of `set_baseline` is a baseline write with value 0. -/
theorem set_baseline_calls_nonzero (svm : svm_par) (g : State) :
    ∀ c ∈ callsOf (issued g (set_baseline svm g).2.2),
      c ≠ Call.SetBaseLine_CO2 0 ∧ c ≠ Call.SetBaseLine_TVOC 0 := by
  intro c hc
  simp only [set_baseline, set_baseline_tvoc] at hc
  split at hc
  · simp [issued, callsOf] at hc
    subst hc; simp
  · split at hc
    · simp [issued, callsOf] at hc
      subst hc; simp
    · split at hc
      · split at hc
        · simp [issued, callsOf] at hc
          rcases hc with rfl | rfl
          · simp
          · simp; omega
        · split at hc
          · split at hc <;>
            · simp [issued, callsOf] at hc
              rcases hc with rfl | rfl | rfl
              · simp
              · simp; omega
              · simp; omega
          · simp [issued, callsOf] at hc
            rcases hc with rfl | rfl
            · simp
            · simp; omega
      · split at hc
        · split at hc <;>
          · simp [issued, callsOf] at hc
            rcases hc with rfl | rfl
            · simp
            · simp; omega
        · simp [issued, callsOf] at hc
          subst hc; simp

/-- C2: a baseline value of 0 is never sent to the device.  Whatever the
parameters are (any `baselineCo2`, `baselineTVOC`, `setBaseline`) and whatever
the sensor answers, neither `SetBaseLine_CO2 0` nor `SetBaseLine_TVOC 0` is
among the library calls that `set_baseline` issues. -/
theorem set_baseline_never_writes_zero (svm : svm_par) (g : State) :
    Call.SetBaseLine_CO2 0 ∉ callsOf (issued g (set_baseline svm g).2.2)
    ∧ Call.SetBaseLine_TVOC 0 ∉ callsOf (issued g (set_baseline svm g).2.2) :=
  ⟨fun h => (set_baseline_calls_nonzero svm g _ h).1 rfl,
   fun h => (set_baseline_calls_nonzero svm g _ h).2 rfl⟩

/-- The deferral of C1 at a concrete sensor: the request `-c 0x8A00`, the
baseline read answering 0. -/
theorem set_baseline_defers_until_settled_witness :
    ((State.start fun _ => Reply.success 0 default).replies 0).ok = true
    ∧ ((State.start fun _ => Reply.success 0 default).replies 0).baseline = 0
    ∧ (set_baseline { svm_par.defaults with baselineCo2 := 0x8A00, setBaseline := true }
        (State.start fun _ => Reply.success 0 default)).1 = true
    ∧ (set_baseline { svm_par.defaults with baselineCo2 := 0x8A00, setBaseline := true }
        (State.start fun _ => Reply.success 0 default)).2.1
        = { svm_par.defaults with baselineCo2 := 0x8A00, setBaseline := true }
    ∧ callsOf (issued (State.start fun _ => Reply.success 0 default)
        (set_baseline { svm_par.defaults with baselineCo2 := 0x8A00, setBaseline := true }
          (State.start fun _ => Reply.success 0 default)).2.2) = [Call.GetBaseLine_TVOC] :=
  ⟨rfl, rfl,
   (set_baseline_defers_until_settled
      { svm_par.defaults with baselineCo2 := 0x8A00, setBaseline := true }
      (State.start fun _ => Reply.success 0 default) rfl rfl).1,
   (set_baseline_defers_until_settled
      { svm_par.defaults with baselineCo2 := 0x8A00, setBaseline := true }
      (State.start fun _ => Reply.success 0 default) rfl rfl).2.1,
   (set_baseline_defers_until_settled
      { svm_par.defaults with baselineCo2 := 0x8A00, setBaseline := true }
      (State.start fun _ => Reply.success 0 default) rfl rfl).2.2.1⟩

/-! ## Outlines -/

@[simp] theorem outline_nil : outline [] = [] := rfl

@[simp] theorem outline_append (xs ys : List Event) :
    outline (xs ++ ys) = outline xs ++ outline ys := by
  simp [outline]

@[simp] theorem outline_cons_call (c : Call) (r : Reply) (es : List Event) :
    outline (Event.call c r :: es) = Mark.call c :: outline es := by
  simp [outline, Event.mark]

@[simp] theorem outline_cons_sleep (n : Nat) (es : List Event) :
    outline (Event.sleep n :: es) = Mark.sleep n :: outline es := by
  simp [outline, Event.mark]

@[simp] theorem outline_cons_printf (f : String) (a : List Arg) (es : List Event) :
    outline (Event.printf f a :: es) = Mark.printf f :: outline es := by
  simp [outline, Event.mark]

@[simp] theorem outline_cons_p_printf (l : Nat) (f : String) (a : List Arg)
    (es : List Event) :
    outline (Event.p_printf l f a :: es)
      = (if f == "\n" || f == "Nothing selected to display \n" then [Mark.output] else [])
        ++ outline es := by
  simp only [outline, List.filterMap_cons, Event.mark]
  split <;> simp_all

@[simp] theorem outline_printf (f : String) (a : List Arg) (g : State) :
    outline (printf f a g).trace = outline g.trace ++ [Mark.printf f] := by
  simp [printf]

@[simp] theorem get_time_stamp_trace (g : State) : (get_time_stamp g).2.trace = g.trace := rfl

@[simp] theorem get_time_stamp_replies (g : State) :
    (get_time_stamp g).2.replies = g.replies := rfl

theorem outline_do_output_timestamp (svm : svm_par) (g : State) :
    outline (do_output_timestamp svm g).trace = outline g.trace := by
  simp only [do_output_timestamp]
  split <;> simp

theorem outline_do_output_AirQual (svm : svm_par) (o : Bool) (g : State) :
    outline (do_output_AirQual svm o g).2.trace = outline g.trace := by
  simp only [do_output_AirQual]
  split <;> simp

theorem outline_do_output_raw (svm : svm_par) (o : Bool) (g : State) :
    outline (do_output_raw svm o g).2.trace = outline g.trace := by
  simp only [do_output_raw]
  split <;> simp

theorem outline_do_output_HumTemp (svm : svm_par) (c : Char) (o : Bool) (g : State) :
    outline (do_output_HumTemp svm c o g).2.trace = outline g.trace := by
  simp only [do_output_HumTemp]
  split <;> simp

theorem outline_do_output_DewPoint (svm : svm_par) (c : Char) (o : Bool) (g : State) :
    outline (do_output_DewPoint svm c o g).2.trace = outline g.trace := by
  simp only [do_output_DewPoint]
  split <;> simp

theorem outline_do_output_HeatInd (svm : svm_par) (c : Char) (o : Bool) (g : State) :
    outline (do_output_HeatInd svm c o g).2.trace = outline g.trace := by
  simp only [do_output_HeatInd]
  split <;> simp

theorem outline_do_output_AbsHum (svm : svm_par) (o : Bool) (g : State) :
    outline (do_output_AbsHum svm o g).2.trace = outline g.trace := by
  simp only [do_output_AbsHum]
  split <;> simp

theorem outline_do_output_DispBaseline (svm : svm_par) (o : Bool) (g : State) :
    outline (do_output_DispBaseline svm o g).2.trace
      = outline g.trace ++
        (if svm.DispBaseline then [Mark.call Call.GetBaseLines] else []) := by
  simp only [do_output_DispBaseline]
  split
  · split <;> simp
  · simp

theorem outline_do_output_end (o : Bool) (g : State) :
    outline (do_output_end o g).trace = outline g.trace ++ [Mark.output] := by
  simp only [do_output_end]
  split <;> simp

/-- The outline of `do_output`: the read of the baselines when their display is
selected, then the closing line. -/
theorem outline_do_output (svm : svm_par) (g : State) :
    outline (do_output svm g).trace
      = outline g.trace ++
        ((if svm.DispBaseline then [Mark.call Call.GetBaseLines] else []) ++ [Mark.output]) := by
  simp only [do_output, outline_do_output_end, outline_do_output_DispBaseline,
    outline_do_output_AbsHum, outline_do_output_HeatInd, outline_do_output_DewPoint,
    outline_do_output_HumTemp, outline_do_output_raw, outline_do_output_AirQual,
    outline_do_output_timestamp, List.append_assoc]

theorem outline_do_humidityComp (svm : svm_par) (g : State) :
    outline (do_humidityComp svm g).2.trace
      = outline g.trace ++
        (if svm.humComp then [Mark.call (Call.SetHumidity svm.v.absolute_hum)] else []) := by
  simp only [do_humidityComp]
  split
  · simp_all
  · split <;> simp_all

/-- The delay loop makes at most `wait` turns, whatever the sensor answers. -/
theorem outline_delay_loop (wait : Nat) (g : State) :
    ∃ k, k ≤ wait ∧ outline (delay_loop wait g).2.trace = outline g.trace ++ delay_turns k := by
  induction wait generalizing g with
  | zero => exact ⟨0, le_refl _, by simp [delay_loop, delay_turns]⟩
  | succ n ih =>
    simp only [delay_loop]
    split
    · exact ⟨1, by omega, by simp [delay_turns, delay_turn]⟩
    · obtain ⟨k, hk, h⟩ := ih (lib Call.TriggerSGP30 (sleep 1 g)).2
      exact ⟨k + 1, by omega, by rw [h]; simp [delay_turns, delay_turn]⟩

/-! ## The replies still to come -/

theorem Later.refl (g : State) : Later g g := ⟨0, fun _ => rfl⟩

theorem Later.trans {g1 g2 g3 : State} (h12 : Later g1 g2) (h23 : Later g2 g3) :
    Later g1 g3 := by
  obtain ⟨k, hk⟩ := h12
  obtain ⟨m, hm⟩ := h23
  exact ⟨m + k, fun i => by rw [hm, hk, Nat.add_assoc]⟩

theorem Later.allOk {g g' : State} (h : Later g g') (hg : AllOk g) : AllOk g' := by
  obtain ⟨k, hk⟩ := h
  intro i
  rw [hk]; exact hg _

theorem Later.of_replies {g g' : State} (h : g'.replies = g.replies) : Later g g' :=
  ⟨0, fun i => by rw [h]; rfl⟩

theorem later_lib (c : Call) (g : State) : Later g (lib c g).2 := ⟨1, fun _ => rfl⟩

theorem later_p_printf (l : Nat) (f : String) (a : List Arg) (g : State) :
    Later g (p_printf l f a g) := Later.refl _

theorem later_sleep (n : Nat) (g : State) : Later g (sleep n g) := Later.refl _

theorem later_do_output_timestamp (svm : svm_par) (g : State) :
    Later g (do_output_timestamp svm g) := by
  simp only [do_output_timestamp]
  split
  · exact Later.refl _
  · exact Later.refl _

theorem later_do_output_AirQual (svm : svm_par) (o : Bool) (g : State) :
    Later g (do_output_AirQual svm o g).2 := by
  simp only [do_output_AirQual]
  split <;> exact Later.refl _

theorem later_do_output_raw (svm : svm_par) (o : Bool) (g : State) :
    Later g (do_output_raw svm o g).2 := by
  simp only [do_output_raw]
  split <;> exact Later.refl _

theorem later_do_output_HumTemp (svm : svm_par) (c : Char) (o : Bool) (g : State) :
    Later g (do_output_HumTemp svm c o g).2 := by
  simp only [do_output_HumTemp]
  split <;> exact Later.refl _

theorem later_do_output_DewPoint (svm : svm_par) (c : Char) (o : Bool) (g : State) :
    Later g (do_output_DewPoint svm c o g).2 := by
  simp only [do_output_DewPoint]
  split <;> exact Later.refl _

theorem later_do_output_HeatInd (svm : svm_par) (c : Char) (o : Bool) (g : State) :
    Later g (do_output_HeatInd svm c o g).2 := by
  simp only [do_output_HeatInd]
  split <;> exact Later.refl _

theorem later_do_output_AbsHum (svm : svm_par) (o : Bool) (g : State) :
    Later g (do_output_AbsHum svm o g).2 := by
  simp only [do_output_AbsHum]
  split <;> exact Later.refl _

theorem later_do_output_DispBaseline (svm : svm_par) (o : Bool) (g : State) :
    Later g (do_output_DispBaseline svm o g).2 := by
  simp only [do_output_DispBaseline]
  split
  · split <;> exact later_lib Call.GetBaseLines g
  · exact Later.refl _

theorem later_do_output_end (o : Bool) (g : State) : Later g (do_output_end o g) := by
  simp only [do_output_end]
  split <;> exact Later.refl _

theorem later_do_output (svm : svm_par) (g : State) : Later g (do_output svm g) := by
  simp only [do_output]
  exact (later_do_output_timestamp _ _).trans <|
    (later_do_output_AirQual _ _ _).trans <|
    (later_do_output_raw _ _ _).trans <|
    (later_do_output_HumTemp _ _ _ _).trans <|
    (later_do_output_DewPoint _ _ _ _).trans <|
    (later_do_output_HeatInd _ _ _ _).trans <|
    (later_do_output_AbsHum _ _ _).trans <|
    (later_do_output_DispBaseline _ _ _).trans <|
    later_do_output_end _ _

theorem later_set_baseline_tvoc (svm : svm_par) (g : State) :
    Later g (set_baseline_tvoc svm g).2.2 := by
  simp only [set_baseline_tvoc]
  split
  · split
    · exact (later_lib (Call.SetBaseLine_TVOC svm.baselineTVOC) g).trans
        (later_p_printf _ _ _ _)
    · exact later_lib (Call.SetBaseLine_TVOC svm.baselineTVOC) g
  · exact Later.refl _

theorem later_set_baseline (svm : svm_par) (g : State) : Later g (set_baseline svm g).2.2 := by
  simp only [set_baseline]
  split
  · exact (later_lib Call.GetBaseLine_TVOC g).trans (later_p_printf _ _ _ _)
  · split
    · exact later_lib Call.GetBaseLine_TVOC g
    · split
      · split
        · exact ((later_lib Call.GetBaseLine_TVOC g).trans
            (later_lib (Call.SetBaseLine_CO2 svm.baselineCo2) _)).trans
            (later_p_printf _ _ _ _)
        · exact ((later_lib Call.GetBaseLine_TVOC g).trans
            (later_lib (Call.SetBaseLine_CO2 svm.baselineCo2) _)).trans
            (later_set_baseline_tvoc _ _)
      · exact (later_lib Call.GetBaseLine_TVOC g).trans (later_set_baseline_tvoc _ _)

theorem later_do_humidityComp (svm : svm_par) (g : State) :
    Later g (do_humidityComp svm g).2 := by
  simp only [do_humidityComp]
  split
  · exact Later.refl _
  · split
    · exact (later_lib (Call.SetHumidity svm.v.absolute_hum) g).trans
        (later_p_printf _ _ _ _)
    · exact later_lib (Call.SetHumidity svm.v.absolute_hum) g

theorem later_delay_loop (wait : Nat) (g : State) : Later g (delay_loop wait g).2 := by
  induction wait generalizing g with
  | zero => exact Later.refl _
  | succ n ih =>
    simp only [delay_loop]
    split
    · exact ((later_sleep 1 g).trans (later_lib Call.TriggerSGP30 (sleep 1 g))).trans
        (later_p_printf _ _ _ _)
    · exact ((later_sleep 1 g).trans (later_lib Call.TriggerSGP30 (sleep 1 g))).trans (ih _)

/-! ## What the steps do when every call succeeds -/

theorem set_baseline_tvoc_ok (svm : svm_par) (g : State) (h : AllOk g) :
    (set_baseline_tvoc svm g).1 = true := by
  have h0 := h 0
  simp only [set_baseline_tvoc]
  split
  · simp [h0]
  · rfl

theorem set_baseline_ok (svm : svm_par) (g : State) (h : AllOk g) :
    (set_baseline svm g).1 = true := by
  have h0 := h 0
  have h1 := h 1
  simp only [set_baseline]
  split
  · simp_all
  · split
    · rfl
    · split
      · split
        · simp_all
        · exact set_baseline_tvoc_ok _ _
            (((later_lib Call.GetBaseLine_TVOC g).trans (later_lib _ _)).allOk h)
      · exact set_baseline_tvoc_ok _ _ ((later_lib Call.GetBaseLine_TVOC g).allOk h)

/-- The only field `set_baseline` may change is `setBaseline`, which it may clear. -/
theorem set_baseline_par (svm : svm_par) (g : State) :
    (set_baseline svm g).2.1 = svm
    ∨ (set_baseline svm g).2.1 = { svm with setBaseline := false } := by
  simp only [set_baseline, set_baseline_tvoc]
  split
  · exact Or.inl rfl
  · split
    · exact Or.inl rfl
    · split
      · split
        · exact Or.inl rfl
        · split
          · split
            · exact Or.inl rfl
            · exact Or.inr rfl
          · exact Or.inr rfl
      · split
        · split
          · exact Or.inl rfl
          · exact Or.inr rfl
        · exact Or.inr rfl

theorem outline_set_baseline_tvoc (svm : svm_par) (g : State) :
    ∃ cs : List Call, outline (set_baseline_tvoc svm g).2.2.trace
        = outline g.trace ++ cs.map Mark.call
      ∧ ∀ c ∈ cs, c = Call.SetBaseLine_TVOC svm.baselineTVOC := by
  simp only [set_baseline_tvoc]
  split
  · split
    · exact ⟨[Call.SetBaseLine_TVOC svm.baselineTVOC], by simp, by simp⟩
    · exact ⟨[Call.SetBaseLine_TVOC svm.baselineTVOC], by simp, by simp⟩
  · exact ⟨[], by simp, by simp⟩

/-- The outline of `set_baseline`: the read of the TVOC baseline, then writes of
the requested baselines only. -/
theorem outline_set_baseline (svm : svm_par) (g : State) :
    ∃ cs : List Call, outline (set_baseline svm g).2.2.trace
        = outline g.trace ++ Mark.call Call.GetBaseLine_TVOC :: cs.map Mark.call
      ∧ ∀ c ∈ cs, c = Call.SetBaseLine_CO2 svm.baselineCo2
          ∨ c = Call.SetBaseLine_TVOC svm.baselineTVOC := by
  simp only [set_baseline]
  split
  · exact ⟨[], by simp, by simp⟩
  · split
    · exact ⟨[], by simp, by simp⟩
    · split
      · split
        · exact ⟨[Call.SetBaseLine_CO2 svm.baselineCo2], by simp, by simp⟩
        · obtain ⟨cs, h1, h2⟩ := outline_set_baseline_tvoc svm
            (lib (Call.SetBaseLine_CO2 svm.baselineCo2) (lib Call.GetBaseLine_TVOC g).2).2
          refine ⟨Call.SetBaseLine_CO2 svm.baselineCo2 :: cs, by rw [h1]; simp, ?_⟩
          intro c hc
          rcases List.mem_cons.1 hc with rfl | hc
          · exact Or.inl rfl
          · exact Or.inr (h2 c hc)
      · obtain ⟨cs, h1, h2⟩ := outline_set_baseline_tvoc svm (lib Call.GetBaseLine_TVOC g).2
        exact ⟨cs, by rw [h1]; simp, fun c hc => Or.inr (h2 c hc)⟩

theorem do_humidityComp_ok (svm : svm_par) (g : State) (h : AllOk g) :
    (do_humidityComp svm g).1 = true := by
  have h0 := h 0
  simp only [do_humidityComp]
  split
  · rfl
  · simp [h0]

theorem delay_loop_ok (wait : Nat) (g : State) (h : AllOk g) :
    (delay_loop wait g).1 = true
    ∧ outline (delay_loop wait g).2.trace = outline g.trace ++ delay_turns wait := by
  induction wait generalizing g with
  | zero => simp [delay_loop, delay_turns]
  | succ n ih =>
    have h0 := h 0
    have hl : AllOk (lib Call.TriggerSGP30 (sleep 1 g)).2 :=
      ((later_sleep 1 g).trans (later_lib Call.TriggerSGP30 (sleep 1 g))).allOk h
    obtain ⟨h1, h2⟩ := ih _ hl
    simp only [delay_loop]
    have hs : (lib Call.TriggerSGP30 (sleep 1 g)).1.ok = true := h0
    simp only [hs, Bool.not_true, Bool.false_eq_true, if_false]
    exact ⟨h1, by rw [h2]; simp [delay_turns, delay_turn]⟩

theorem to_uint8_natCast (n : Nat) : to_uint8 (n : Int) = n % 256 := by
  simp only [to_uint8]
  omega

/-- A measurement cycle in which every call succeeds, from `GetValues` on: it
goes on to the next pass, and its delay loop makes `loop_delay % 256` turns. -/
theorem main_loop_measure_ok (loop_set : Int) (svm : svm_par) (g : State) (h : AllOk g) :
    ∃ g1, main_loop_measure loop_set svm g
        = Step.next (if svm.loop_count > 0 then loop_set - 1 else loop_set)
            { svm with v := (g.replies 0).values } g1
      ∧ AllOk g1
      ∧ outline g1.trace = outline g.trace
          ++ measure_outline svm (g.replies 0).values.absolute_hum (svm.loop_delay % 256) := by
  have h0 := h 0
  have hA : AllOk (do_output { svm with v := (g.replies 0).values }
      (lib (Call.GetValues svm.raw) g).2) :=
    ((later_lib (Call.GetValues svm.raw) g).trans (later_do_output _ _)).allOk h
  have hB := (later_do_humidityComp { svm with v := (g.replies 0).values } _).allOk hA
  have hC := do_humidityComp_ok { svm with v := (g.replies 0).values } _ hA
  obtain ⟨hD, hE⟩ := delay_loop_ok (svm.loop_delay % 256) _ hB
  have hF := (later_delay_loop (svm.loop_delay % 256) _).allOk hB
  refine ⟨_, ?_, hF, ?_⟩
  · simp only [main_loop_measure, lib_reply, h0, if_true, hC, to_uint8_natCast, hD,
      Bool.not_true, Bool.false_eq_true, if_false]
  · rw [hE, outline_do_humidityComp, outline_do_output]
    simp [measure_outline]

/-- The fields of the parameters that `set_baseline` leaves alone. -/
theorem set_baseline_par_fields (svm : svm_par) (g : State) :
    (set_baseline svm g).2.1.loop_count = svm.loop_count
    ∧ (set_baseline svm g).2.1.loop_delay = svm.loop_delay
    ∧ (set_baseline svm g).2.1.raw = svm.raw
    ∧ (set_baseline svm g).2.1.DispBaseline = svm.DispBaseline
    ∧ (set_baseline svm g).2.1.humComp = svm.humComp
    ∧ (set_baseline svm g).2.1.baselineCo2 = svm.baselineCo2
    ∧ (set_baseline svm g).2.1.baselineTVOC = svm.baselineTVOC := by
  rcases set_baseline_par svm g with hp | hp <;> rw [hp] <;> simp

/-- A pass through the loop body in which every call succeeds goes on to the
next pass, keeps the counts and the delay of the parameters, and adds the
outline of one measurement after the calls of `set_baseline`, if any. -/
theorem main_loop_body_ok (loop_set : Int) (svm : svm_par) (g : State) (h : AllOk g) :
    ∃ (svm1 : svm_par) (g1 : State) (cs : List Call) (absolute_hum : CFloat),
      main_loop_body loop_set svm g
        = Step.next (if svm.loop_count > 0 then loop_set - 1 else loop_set) svm1 g1
      ∧ AllOk g1
      ∧ svm1.loop_count = svm.loop_count ∧ svm1.loop_delay = svm.loop_delay
      ∧ svm1.raw = svm.raw ∧ svm1.DispBaseline = svm.DispBaseline
      ∧ svm1.humComp = svm.humComp
      ∧ (∀ c ∈ cs, c = Call.GetBaseLine_TVOC ∨ c = Call.SetBaseLine_CO2 svm.baselineCo2
            ∨ c = Call.SetBaseLine_TVOC svm.baselineTVOC)
      ∧ outline g1.trace = outline g.trace ++ cs.map Mark.call
          ++ measure_outline svm absolute_hum (svm.loop_delay % 256) := by
  simp only [main_loop_body]
  split
  · have hok := set_baseline_ok svm g h
    have hl := (later_set_baseline svm g).allOk h
    obtain ⟨cs, hc1, hc2⟩ := outline_set_baseline svm g
    obtain ⟨f1, f2, f3, f4, f5, -, -⟩ := set_baseline_par_fields svm g
    obtain ⟨g1, m1, m2, m3⟩ :=
      main_loop_measure_ok loop_set (set_baseline svm g).2.1 (set_baseline svm g).2.2 hl
    simp only [hok, Bool.not_true, Bool.false_eq_true, if_false]
    rw [f1] at m1
    refine ⟨_, g1, Call.GetBaseLine_TVOC :: cs,
      ((set_baseline svm g).2.2.replies 0).values.absolute_hum, m1, m2, rfl, f2, f3, f4, f5,
      ?_, ?_⟩
    · intro c hc
      rcases List.mem_cons.1 hc with rfl | hc
      · exact Or.inl rfl
      · exact Or.inr (hc2 c hc)
    · rw [m3, hc1]
      simp [measure_outline, f2, f3, f4, f5]
  · obtain ⟨g1, m1, m2, m3⟩ := main_loop_measure_ok loop_set svm g h
    exact ⟨_, g1, [], (g.replies 0).values.absolute_hum, m1, m2, rfl, rfl, rfl, rfl, rfl,
      by simp, by rw [m3]; simp⟩

/-! ## Counting in outlines -/

theorem GetValues_calls_append (xs ys : List Event) :
    GetValues_calls (xs ++ ys) = GetValues_calls xs + GetValues_calls ys := by
  simp [GetValues_calls]

theorem do_output_calls_append (xs ys : List Event) :
    do_output_calls (xs ++ ys) = do_output_calls xs + do_output_calls ys := by
  simp [do_output_calls]

theorem sleeps_append (xs ys : List Event) : sleeps (xs ++ ys) = sleeps xs + sleeps ys := by
  simp [sleeps]

theorem count_delay_turns (n : Nat) :
    (delay_turns n).countP (fun m => m == Mark.call (Call.GetValues true)
        || m == Mark.call (Call.GetValues false)) = 0
    ∧ (delay_turns n).count Mark.output = 0
    ∧ (delay_turns n).count (Mark.sleep 1) = n
    ∧ ∀ f, (delay_turns n).count (Mark.printf f) = 0 := by
  induction n with
  | zero => simp [delay_turns]
  | succ k ih =>
    obtain ⟨h1, h2, h3, h4⟩ := ih
    refine ⟨?_, ?_, ?_, ?_⟩
    · simp [delay_turns, delay_turn, h1]
    · simp [delay_turns, delay_turn, h2]
    · simp [delay_turns, delay_turn, h3]
    · intro f
      simp [delay_turns, delay_turn, h4]

theorem count_measure_outline (svm : svm_par) (a : CFloat) (n : Nat) :
    (measure_outline svm a n).countP (fun m => m == Mark.call (Call.GetValues true)
        || m == Mark.call (Call.GetValues false)) = 1
    ∧ (measure_outline svm a n).count Mark.output = 1
    ∧ (measure_outline svm a n).count (Mark.sleep 1) = n
    ∧ ∀ f, (measure_outline svm a n).count (Mark.printf f) = 0 := by
  obtain ⟨h1, h2, h3, h4⟩ := count_delay_turns n
  refine ⟨?_, ?_, ?_, ?_⟩
  · simp only [measure_outline, List.countP_cons, List.countP_append, h1]
    cases svm.raw <;> cases svm.DispBaseline <;> cases svm.humComp <;> simp
  · simp only [measure_outline, List.count_cons, List.count_append, h2]
    cases svm.DispBaseline <;> cases svm.humComp <;> simp
  · simp only [measure_outline, List.count_cons, List.count_append, h3]
    cases svm.DispBaseline <;> cases svm.humComp <;> simp
  · intro f
    simp only [measure_outline, List.count_cons, List.count_append, h4]
    cases svm.DispBaseline <;> cases svm.humComp <;> simp

theorem count_baseline_calls (svm : svm_par) (cs : List Call)
    (h : ∀ c ∈ cs, c = Call.GetBaseLine_TVOC ∨ c = Call.SetBaseLine_CO2 svm.baselineCo2
            ∨ c = Call.SetBaseLine_TVOC svm.baselineTVOC) :
    (cs.map Mark.call).countP (fun m => m == Mark.call (Call.GetValues true)
        || m == Mark.call (Call.GetValues false)) = 0
    ∧ (cs.map Mark.call).count Mark.output = 0
    ∧ (cs.map Mark.call).count (Mark.sleep 1) = 0
    ∧ ∀ f, (cs.map Mark.call).count (Mark.printf f) = 0 := by
  refine ⟨?_, ?_, ?_, ?_⟩
  · rw [List.countP_eq_zero]
    intro m hm
    obtain ⟨c, hc, rfl⟩ := List.mem_map.1 hm
    rcases h c hc with rfl | rfl | rfl <;> simp
  · rw [List.count_eq_zero]
    intro hm
    obtain ⟨c, -, hc⟩ := List.mem_map.1 hm
    cases hc
  · rw [List.count_eq_zero]
    intro hm
    obtain ⟨c, -, hc⟩ := List.mem_map.1 hm
    cases hc
  · intro f
    rw [List.count_eq_zero]
    intro hm
    obtain ⟨c, -, hc⟩ := List.mem_map.1 hm
    cases hc

/-- One pass through the loop body in which every call succeeds: one
`GetValues`, one `do_output`, `loop_delay % 256` one-second sleeps. -/
theorem main_loop_body_counts (loop_set : Int) (svm : svm_par) (g : State) (h : AllOk g) :
    ∃ (svm1 : svm_par) (g1 : State),
      main_loop_body loop_set svm g
        = Step.next (if svm.loop_count > 0 then loop_set - 1 else loop_set) svm1 g1
      ∧ AllOk g1
      ∧ svm1.loop_count = svm.loop_count ∧ svm1.loop_delay = svm.loop_delay
      ∧ GetValues_calls g1.trace = GetValues_calls g.trace + 1
      ∧ do_output_calls g1.trace = do_output_calls g.trace + 1
      ∧ sleeps g1.trace = sleeps g.trace + svm.loop_delay % 256
      ∧ loopcount_messages g1.trace = loopcount_messages g.trace := by
  obtain ⟨svm1, g1, cs, a, hb, hok, h1, h2, -, -, -, hcs, ho⟩ :=
    main_loop_body_ok loop_set svm g h
  obtain ⟨c1, c2, c3, c4⟩ := count_baseline_calls svm cs hcs
  obtain ⟨m1, m2, m3, m4⟩ := count_measure_outline svm a (svm.loop_delay % 256)
  refine ⟨svm1, g1, hb, hok, h1, h2, ?_, ?_, ?_, ?_⟩
  · simp only [GetValues_calls, ho, List.countP_append, c1, m1, Nat.add_zero]
  · simp only [do_output_calls, ho, List.count_append, c2, m2, Nat.add_zero]
  · simp only [sleeps, ho, List.count_append, c3, m3, Nat.add_zero]
  · simp only [loopcount_messages, ho, List.count_append, c4, m4, Nat.add_zero]

/-! ## The measurement loop when every call succeeds -/

/-- With a positive loop count, the loop started with `loop_set = m` makes
exactly `m` passes and then prints the closing message. -/
theorem main_loop_while_counts (m : Nat) :
    ∀ (fuel : Nat) (svm : svm_par) (g : State), AllOk g → svm.loop_count > 0 → m ≤ fuel →
      ∃ (svm1 : svm_par) (g1 : State),
        main_loop_while fuel (m : Int) svm g = Run.returned svm1 g1
        ∧ GetValues_calls g1.trace = GetValues_calls g.trace + m
        ∧ do_output_calls g1.trace = do_output_calls g.trace + m
        ∧ sleeps g1.trace = sleeps g.trace + m * (svm.loop_delay % 256)
        ∧ loopcount_messages g1.trace = loopcount_messages g.trace + 1 := by
  induction m with
  | zero =>
    intro fuel svm g _ _ _
    refine ⟨svm, printf "Reached the loopcount of %d.\nclosing down\n"
      [Arg.num svm.loop_count] g, ?_, ?_, ?_, ?_, ?_⟩
    · unfold main_loop_while
      simp
    · simp [GetValues_calls]
    · simp [do_output_calls]
    · simp [sleeps]
    · simp [loopcount_messages]
  | succ k ih =>
    intro fuel svm g hok hpos hfuel
    obtain ⟨f, rfl⟩ : ∃ f, fuel = f + 1 := ⟨fuel - 1, by omega⟩
    obtain ⟨svm1, g1, hb, hok1, hc, hd, b1, b2, b3, b4⟩ :=
      main_loop_body_counts ((k + 1 : Nat) : Int) svm g hok
    have hpos1 : svm1.loop_count > 0 := by rw [hc]; exact hpos
    obtain ⟨svm2, g2, hw, w1, w2, w3, w4⟩ := ih f svm1 g1 hok1 hpos1 (by omega)
    refine ⟨svm2, g2, ?_, ?_, ?_, ?_, ?_⟩
    · unfold main_loop_while
      have hlt : ((k + 1 : Nat) : Int) > 0 := by omega
      simp only [hlt, if_true, hb, hpos]
      have he : ((k + 1 : Nat) : Int) - 1 = (k : Int) := by omega
      rw [he]; exact hw
    · rw [w1, b1]; omega
    · rw [w2, b2]; omega
    · rw [w3, b3, hd, Nat.add_mul, Nat.one_mul]; omega
    · rw [w4, b4]

/-- With loop count 0, the loop is still going after any number `k` of passes,
with `loop_set = 1` at its head. -/
theorem main_loop_while_endless (k : Nat) :
    ∀ (svm : svm_par) (g : State), AllOk g → svm.loop_count = 0 →
      ∃ (svm1 : svm_par) (g1 : State),
        main_loop_while k 1 svm g = Run.running 1 svm1 g1
        ∧ GetValues_calls g1.trace = GetValues_calls g.trace + k
        ∧ loopcount_messages g1.trace = loopcount_messages g.trace := by
  induction k with
  | zero =>
    intro svm g _ _
    refine ⟨svm, g, ?_, rfl, rfl⟩
    unfold main_loop_while
    simp
  | succ k ih =>
    intro svm g hok hzero
    obtain ⟨svm1, g1, hb, hok1, hc, -, b1, -, -, b4⟩ := main_loop_body_counts 1 svm g hok
    have hz1 : svm1.loop_count = 0 := by rw [hc]; exact hzero
    obtain ⟨svm2, g2, hw, w1, w4⟩ := ih svm1 g1 hok1 hz1
    refine ⟨svm2, g2, ?_, ?_, ?_⟩
    · unfold main_loop_while
      simp only [hzero, gt_iff_lt, Nat.lt_irrefl, if_false] at hb
      simp only [hb]
      simpa using hw
    · rw [w1, b1]; omega
    · rw [w4, b4]

/-! ## `disp_dev` and the measurement test -/

theorem later_disp_dev (svm : svm_par) (g : State) : Later g (disp_dev svm g).2 := by
  have l1 : Later g (p_printf YELLOW "Driver info : %s\n" [Arg.str (g.replies 0).text]
      (lib Call.GetDriverVersion g).2) :=
    (later_lib Call.GetDriverVersion g).trans (later_p_printf _ _ _ _)
  have l2 := l1.trans (later_lib (Call.GetId SGP30) _)
  simp only [disp_dev]
  split
  · exact l2.trans (later_p_printf _ _ _ _)
  · have l3 := (l2.trans (later_p_printf YELLOW "SGP30 ID : 0x%04X %04X %04X\n"
        [Arg.num (g.replies 1).id0, Arg.num (g.replies 1).id1, Arg.num (g.replies 1).id2]
        _)).trans (later_lib (Call.GetId SHTC1) _)
    split
    · exact l3.trans (later_p_printf _ _ _ _)
    · have l4 := (l3.trans (later_p_printf YELLOW "SHTC1 ID : 0x%04X\n"
          [Arg.num ((g.replies 2).id0 &&& 0x3f : Nat)] _)).trans
          (later_lib Call.GetFeatureSet _)
      split
      · exact l4.trans (later_p_printf _ _ _ _)
      · exact l4.trans (later_p_printf _ _ _ _)

/-- When its three reads succeed, `disp_dev` returns `ERR_OK` after the calls
`GetDriverVersion`, `GetId(SGP30)`, `GetId(SHTC1)`, `GetFeatureSet`. -/
theorem disp_dev_ok (svm : svm_par) (g : State) (h1 : (g.replies 1).ok = true)
    (h2 : (g.replies 2).ok = true) (h3 : (g.replies 3).ok = true) :
    (disp_dev svm g).1 = ERR_OK
    ∧ outline (disp_dev svm g).2.trace = outline g.trace ++ disp_dev_calls.map Mark.call
    ∧ ∀ i, (disp_dev svm g).2.replies i = g.replies (i + 4) := by
  simp [disp_dev, h1, h2, h3, disp_dev_calls]

/-- Whatever the sensor answers, the library calls of `disp_dev` are the first
few of `GetDriverVersion`, `GetId(SGP30)`, `GetId(SHTC1)`, `GetFeatureSet`. -/
theorem outline_disp_dev (svm : svm_par) (g : State) :
    ∃ k, outline (disp_dev svm g).2.trace
      = outline g.trace ++ (disp_dev_calls.take k).map Mark.call := by
  simp only [disp_dev]
  split
  · exact ⟨2, by simp [disp_dev_calls]⟩
  · split
    · exact ⟨3, by simp [disp_dev_calls]⟩
    · split
      · exact ⟨4, by simp [disp_dev_calls]⟩
      · exact ⟨4, by simp [disp_dev_calls]⟩

theorem later_main_loop_test (svm : svm_par) (g : State) :
    Later g (main_loop_test svm g) := by
  simp only [main_loop_test]
  split
  · split
    · exact (later_lib Call.MeasureTest g).trans (later_p_printf _ _ _ _)
    · exact (later_lib Call.MeasureTest g).trans (later_p_printf _ _ _ _)
  · exact Later.refl _

theorem outline_main_loop_test (svm : svm_par) (g : State) :
    outline (main_loop_test svm g).trace
      = outline g.trace ++ (if svm.measure then [Mark.call Call.MeasureTest] else []) := by
  simp only [main_loop_test]
  split
  · split <;> simp
  · simp

/-- What `main_loop` does before the measurement loop when the reads of
`disp_dev` succeed and more than the device information is asked for. -/
theorem main_loop_start (fuel : Nat) (svm : svm_par) (g : State)
    (h1 : (g.replies 1).ok = true) (h2 : (g.replies 2).ok = true)
    (h3 : (g.replies 3).ok = true) (hd : svm.dev_info_only = false) :
    main_loop fuel svm g
      = main_loop_while fuel (if svm.loop_count > 0 then (svm.loop_count : Int) else 1) svm
          (main_loop_test svm
            (p_printf GREEN "Starting SVM30 measurement:\n" [] (disp_dev svm g).2)) := by
  obtain ⟨e, -, -⟩ := disp_dev_ok svm g h1 h2 h3
  simp [main_loop, e, hd]

/-- The outline of the start of `main_loop`. -/
theorem outline_main_loop_start (svm : svm_par) (g : State)
    (h1 : (g.replies 1).ok = true) (h2 : (g.replies 2).ok = true)
    (h3 : (g.replies 3).ok = true) :
    outline (main_loop_test svm
        (p_printf GREEN "Starting SVM30 measurement:\n" [] (disp_dev svm g).2)).trace
      = outline g.trace ++ (disp_dev_calls.map Mark.call
          ++ (if svm.measure then [Mark.call Call.MeasureTest] else [])) := by
  obtain ⟨-, o, -⟩ := disp_dev_ok svm g h1 h2 h3
  rw [outline_main_loop_test, p_printf_trace, outline_append, o]
  simp

theorem count_main_loop_start (svm : svm_par) :
    (disp_dev_calls.map Mark.call
        ++ (if svm.measure then [Mark.call Call.MeasureTest] else [])).countP
        (fun m => m == Mark.call (Call.GetValues true)
          || m == Mark.call (Call.GetValues false)) = 0
    ∧ (disp_dev_calls.map Mark.call
        ++ (if svm.measure then [Mark.call Call.MeasureTest] else [])).count Mark.output = 0
    ∧ (disp_dev_calls.map Mark.call
        ++ (if svm.measure then [Mark.call Call.MeasureTest] else [])).count (Mark.sleep 1) = 0
    ∧ ∀ f, (disp_dev_calls.map Mark.call
        ++ (if svm.measure then [Mark.call Call.MeasureTest] else [])).count (Mark.printf f)
          = 0 := by
  cases svm.measure <;> simp [disp_dev_calls]

/-- The events `main_loop` appends are those it produces from an empty trace. -/
theorem issued_main_loop (fuel : Nat) (svm : svm_par) (g : State) :
    issued g (main_loop fuel svm g).state = (main_loop fuel svm g.fresh).state.trace :=
  issued_append _ _ _ (main_loop_trace fuel svm g)

theorem main_loop_fresh (fuel : Nat) (svm : svm_par) (g : State) :
    main_loop fuel svm g = (main_loop fuel svm g.fresh).after g.trace := by
  rw [← main_loop_after, after_fresh]

/-- The state in which the measurement loop of `main_loop` is entered, and the
counts of the trace at that point. -/
theorem main_loop_entry (svm : svm_par) (g : State) (hok : AllOk g) :
    AllOk (main_loop_test svm
        (p_printf GREEN "Starting SVM30 measurement:\n" [] (disp_dev svm g).2))
    ∧ GetValues_calls (main_loop_test svm
        (p_printf GREEN "Starting SVM30 measurement:\n" [] (disp_dev svm g).2)).trace
        = GetValues_calls g.trace
    ∧ do_output_calls (main_loop_test svm
        (p_printf GREEN "Starting SVM30 measurement:\n" [] (disp_dev svm g).2)).trace
        = do_output_calls g.trace
    ∧ sleeps (main_loop_test svm
        (p_printf GREEN "Starting SVM30 measurement:\n" [] (disp_dev svm g).2)).trace
        = sleeps g.trace
    ∧ loopcount_messages (main_loop_test svm
        (p_printf GREEN "Starting SVM30 measurement:\n" [] (disp_dev svm g).2)).trace
        = loopcount_messages g.trace := by
  have ho := outline_main_loop_start svm g (hok 1) (hok 2) (hok 3)
  obtain ⟨c1, c2, c3, c4⟩ := count_main_loop_start svm
  refine ⟨?_, ?_, ?_, ?_, ?_⟩
  · exact (((later_disp_dev svm g).trans (later_p_printf _ _ _ _)).trans
      (later_main_loop_test svm _)).allOk hok
  · simp only [GetValues_calls, ho, List.countP_append, c1, Nat.add_zero]
  · simp only [do_output_calls, ho, List.count_append, c2, Nat.add_zero]
  · simp only [sleeps, ho, List.count_append, c3, Nat.add_zero]
  · simp only [loopcount_messages, ho, List.count_append, c4, Nat.add_zero]

/-- C6: the `-l` value is the number of measurements.  For a loop count `n`
with `1 ≤ n ≤ 65535`, `dev_info_only` not set and every library call
succeeding, `main_loop` returns as soon as it is given at least `n` loop
iterations, and in that run it has called `GetValues` exactly `n` times and
`do_output` exactly `n` times, and has printed the closing message once. -/
theorem main_loop_measures_loop_count_times (n fuel : Nat) (svm : svm_par) (g : State)
    (hn : svm.loop_count = n) (h1 : 1 ≤ n) (_h2 : n ≤ 65535)
    (hd : svm.dev_info_only = false) (hok : AllOk g) (hfuel : n ≤ fuel) :
    (main_loop fuel svm g).isReturned = true
    ∧ GetValues_calls (issued g (main_loop fuel svm g).state) = n
    ∧ do_output_calls (issued g (main_loop fuel svm g).state) = n
    ∧ loopcount_messages (issued g (main_loop fuel svm g).state) = 1 := by
  have hokf : AllOk g.fresh := hok
  have hpos : svm.loop_count > 0 := by omega
  obtain ⟨e0, e1, e2, -, e4⟩ := main_loop_entry svm g.fresh hokf
  obtain ⟨svm1, g1, hw, w1, w2, -, w4⟩ :=
    main_loop_while_counts n fuel svm _ e0 hpos hfuel
  have hm : main_loop fuel svm g.fresh = Run.returned svm1 g1 := by
    rw [main_loop_start fuel svm g.fresh (hokf 1) (hokf 2) (hokf 3) hd]
    have hpn : n > 0 := by omega
    simp only [hn, hpn, if_true]
    exact hw
  rw [issued_main_loop, main_loop_fresh, hm]
  refine ⟨rfl, ?_, ?_, ?_⟩
  · simp only [Run.state]
    rw [w1, e1]; simp [GetValues_calls]
  · simp only [Run.state]
    rw [w2, e2]; simp [do_output_calls]
  · simp only [Run.state]
    rw [w4, e4]; simp [loopcount_messages]

/-- C7: a loop count of 0 means endless.  With `loop_count = 0`,
`dev_info_only` not set and every library call succeeding, after any number
`k` of passes through the measurement loop `main_loop` has not returned: it
stands at the head of the loop with `loop_set = 1`, about to start the next
pass, it has called `GetValues` exactly `k` times, and it has not printed the
closing message. -/
theorem main_loop_endless_when_loop_count_zero (k : Nat) (svm : svm_par) (g : State)
    (hzero : svm.loop_count = 0) (hd : svm.dev_info_only = false) (hok : AllOk g) :
    ∃ (svm1 : svm_par) (g1 : State),
      main_loop k svm g = Run.running 1 svm1 g1
      ∧ GetValues_calls (issued g g1) = k
      ∧ loopcount_messages (issued g g1) = 0 := by
  have hokf : AllOk g.fresh := hok
  obtain ⟨e0, e1, -, -, e4⟩ := main_loop_entry svm g.fresh hokf
  obtain ⟨svm1, g1, hw, w1, w4⟩ := main_loop_while_endless k svm _ e0 hzero
  have hm : main_loop k svm g.fresh = Run.running 1 svm1 g1 := by
    rw [main_loop_start k svm g.fresh (hokf 1) (hokf 2) (hokf 3) hd]
    simp only [hzero, gt_iff_lt, Nat.lt_irrefl, if_false]
    exact hw
  refine ⟨svm1, g1.after g.trace, ?_, ?_, ?_⟩
  · rw [main_loop_fresh, hm]; rfl
  · rw [issued_append g (g1.after g.trace) g1.trace rfl, w1, e1]
    simp [GetValues_calls]
  · rw [issued_append g (g1.after g.trace) g1.trace rfl, w4, e4]
    simp [loopcount_messages]

/-- C6 at a concrete run: two measurements asked for, a sensor that always
succeeds. -/
theorem main_loop_measures_loop_count_times_witness :
    ({ svm_par.defaults with loop_count := 2 } : svm_par).loop_count = 2
    ∧ AllOk (State.healthy 1)
    ∧ (main_loop 2 { svm_par.defaults with loop_count := 2 } (State.healthy 1)).isReturned
        = true
    ∧ GetValues_calls (issued (State.healthy 1)
        (main_loop 2 { svm_par.defaults with loop_count := 2 } (State.healthy 1)).state) = 2
    ∧ do_output_calls (issued (State.healthy 1)
        (main_loop 2 { svm_par.defaults with loop_count := 2 } (State.healthy 1)).state) = 2
    ∧ loopcount_messages (issued (State.healthy 1)
        (main_loop 2 { svm_par.defaults with loop_count := 2 } (State.healthy 1)).state)
        = 1 :=
  ⟨rfl, fun _ => rfl,
   main_loop_measures_loop_count_times 2 2 { svm_par.defaults with loop_count := 2 }
     (State.healthy 1) rfl (by decide) (by decide) rfl (fun _ => rfl) (le_refl 2)⟩

/-- C7 at a concrete run: loop count 0, a sensor that always succeeds, three
passes made and the loop still going. -/
theorem main_loop_endless_when_loop_count_zero_witness :
    ({ svm_par.defaults with loop_count := 0 } : svm_par).loop_count = 0
    ∧ AllOk (State.healthy 1)
    ∧ ∃ (svm1 : svm_par) (g1 : State),
        main_loop 3 { svm_par.defaults with loop_count := 0 } (State.healthy 1)
          = Run.running 1 svm1 g1
        ∧ GetValues_calls (issued (State.healthy 1) g1) = 3
        ∧ loopcount_messages (issued (State.healthy 1) g1) = 0 :=
  ⟨rfl, fun _ => rfl,
   main_loop_endless_when_loop_count_zero 3 { svm_par.defaults with loop_count := 0 }
     (State.healthy 1) rfl rfl (fun _ => rfl)⟩

/-! ## C3: the delay between measurements -/

/-- A measurement cycle without a baseline request in which every call
succeeds: its outline, with `loop_delay % 256` turns of the delay loop. -/
theorem main_loop_body_outline (loop_set : Int) (svm : svm_par) (g : State) (h : AllOk g)
    (hs : svm.setBaseline = false) :
    ∃ g1, main_loop_body loop_set svm g
        = Step.next (if svm.loop_count > 0 then loop_set - 1 else loop_set)
            { svm with v := (g.replies 0).values } g1
      ∧ outline (issued g g1)
          = measure_outline svm (g.replies 0).values.absolute_hum (svm.loop_delay % 256) := by
  have hf : AllOk g.fresh := h
  obtain ⟨g1, m1, -, m3⟩ := main_loop_measure_ok loop_set svm g.fresh hf
  refine ⟨g1.after g.trace, ?_, ?_⟩
  · have hb : main_loop_body loop_set svm g = main_loop_measure loop_set svm g := by
      simp [main_loop_body, hs]
    have ha := main_loop_measure_after loop_set svm g.trace g.fresh
    rw [after_fresh] at ha
    rw [hb, ha, m1]
    rfl
  · rw [issued_append g (g1.after g.trace) g1.trace rfl, m3]
    simp

/-- C3, at the failing input `-w 256` with a sensor that always succeeds: the
measurement cycle goes on to the next one after reading and displaying the
sample, with no `sleep` and no `TriggerSGP30` at all, because the `uint16_t`
delay is copied into the `uint8_t` counter `wait`. -/
theorem delay_of_256_seconds_is_skipped :
    ∃ (svm1 : svm_par) (g1 : State),
      main_loop_body 10 { svm_par.defaults with loop_delay := 256 } (State.healthy 1)
        = Step.next 9 svm1 g1
      ∧ outline (issued (State.healthy 1) g1)
          = [Mark.call (Call.GetValues false), Mark.output]
      ∧ sleeps (issued (State.healthy 1) g1) = 0 := by
  obtain ⟨g1, h1, h2⟩ := main_loop_body_outline 10
    { svm_par.defaults with loop_delay := 256 } (State.healthy 1) (fun _ => rfl) rfl
  have h3 : outline (issued (State.healthy 1) g1)
      = [Mark.call (Call.GetValues false), Mark.output] := by
    rw [h2]; rfl
  exact ⟨_, g1, h1, h3, by rw [sleeps, h3]; rfl⟩

/-! ## C4: a failed `begin` -/

@[simp] theorem callsOf_cons_call (c : Call) (r : Reply) (es : List Event) :
    callsOf (Event.call c r :: es) = c :: callsOf es := rfl

@[simp] theorem callsOf_cons_sleep (n : Nat) (es : List Event) :
    callsOf (Event.sleep n :: es) = callsOf es := rfl

@[simp] theorem callsOf_cons_p_printf (l : Nat) (f : String) (a : List Arg)
    (es : List Event) : callsOf (Event.p_printf l f a :: es) = callsOf es := rfl

@[simp] theorem callsOf_cons_printf (f : String) (a : List Arg) (es : List Event) :
    callsOf (Event.printf f a :: es) = callsOf es := rfl

@[simp] theorem callsOf_nil : callsOf [] = [] := rfl

theorem quiet_refl (g : State) : ∃ es, g.trace = g.trace ++ es ∧ callsOf es = [] :=
  ⟨[], by simp, rfl⟩

theorem quiet_p_printf (l : Nat) (f : String) (a : List Arg) (g : State) :
    ∃ es, (p_printf l f a g).trace = g.trace ++ es ∧ callsOf es = [] :=
  ⟨[Event.p_printf (if g.NoColor then WHITE else l) f a], rfl, rfl⟩

theorem quiet_printf (f : String) (a : List Arg) (g : State) :
    ∃ es, (printf f a g).trace = g.trace ++ es ∧ callsOf es = [] :=
  ⟨[Event.printf f a], rfl, rfl⟩

/-- Parsing an option makes no library call and uses up no reply; when it
ends the program, the status is `EXIT_FAILURE`. -/
theorem parse_cmdline_quiet (opt : Char) (option : String) (svm : svm_par) (g : State) :
    (parse_cmdline opt option svm g).state.replies = g.replies
    ∧ (∃ es, (parse_cmdline opt option svm g).state.trace = g.trace ++ es ∧ callsOf es = [])
    ∧ ∀ status g1, parse_cmdline opt option svm g = Ctl.exit status g1 →
        status = EXIT_FAILURE := by
  unfold parse_cmdline
  split <;> (try dsimp only) <;> (try split_ifs) <;>
    refine ⟨by simp [Ctl.state, usage, printf], ?_, by simp⟩ <;>
    simp only [Ctl.state, usage] <;>
    first
    | exact quiet_refl g
    | exact quiet_p_printf _ _ _ g
    | exact quiet_printf _ _ g

theorem parse_options_quiet (opts : List (Char × String)) :
    ∀ (svm : svm_par) (g : State),
      (parse_options opts svm g).state.replies = g.replies
      ∧ (∃ es, (parse_options opts svm g).state.trace = g.trace ++ es ∧ callsOf es = [])
      ∧ ∀ status g1, parse_options opts svm g = Ctl.exit status g1 →
          status = EXIT_FAILURE := by
  induction opts with
  | nil =>
    intro svm g
    exact ⟨rfl, ⟨[], by simp [parse_options, Ctl.state], rfl⟩, by simp [parse_options]⟩
  | cons o rest ih =>
    intro svm g
    obtain ⟨opt, optarg⟩ := o
    obtain ⟨q1, ⟨es, q2, q2e⟩, q3⟩ := parse_cmdline_quiet opt optarg svm g
    simp only [parse_options]
    cases hp : parse_cmdline opt optarg svm g with
    | ok svm1 g1 =>
      rw [hp] at q1 q2
      simp only [Ctl.state] at q1 q2
      obtain ⟨i1, ⟨es1, i2, i2e⟩, i3⟩ := ih svm1 g1
      exact ⟨by rw [i1, q1], ⟨es ++ es1, by rw [i2, q2, List.append_assoc],
        by simp [q2e, i2e]⟩, i3⟩
    | exit status g1 =>
      rw [hp] at q1 q2
      simp only [Ctl.state] at q1 q2
      refine ⟨q1, ⟨es, q2, q2e⟩, ?_⟩
      intro st g2 he
      have := q3 status g1 hp
      cases he
      exact this

/-- When `begin` fails, `init_hw` ends the program with `EXIT_FAILURE` after
its three library calls. -/
theorem init_hw_begin_failed (svm : svm_par) (g : State) (h : (g.replies 2).ok = false) :
    ∃ g1 es, init_hw svm g = Ctl.exit EXIT_FAILURE g1 ∧ g1.trace = g.trace ++ es
      ∧ callsOf es = init_hw_calls svm := by
  refine ⟨p_printf RED "Error during setting I2C\n" []
      (lib Call.begin (lib (Call.SetTempCelsius svm.tempCel)
        (lib (Call.EnableDebugging svm.verbose) g).2).2).2,
    [Event.call (Call.EnableDebugging svm.verbose) (g.replies 0),
     Event.call (Call.SetTempCelsius svm.tempCel) (g.replies 1),
     Event.call Call.begin (g.replies 2),
     Event.p_printf (if g.NoColor then WHITE else RED) "Error during setting I2C\n" []],
    ?_, ?_, ?_⟩
  · simp only [init_hw, lib_reply, lib_replies, h, Bool.not_false, if_true]
  · simp
  · simp [init_hw_calls]

/-- C4: a failed `begin()` is fatal.  `begin` is the third library call of a
run, after `EnableDebugging` and `SetTempCelsius`.  If its reply reports
failure then, whatever the user, the options and the rest of the sensor's
behaviour are, the program ends with `EXIT_FAILURE`, and the library calls of
the whole run are at most those three of `init_hw`: `main_loop` is not
entered, and no identity, self-test, baseline, measurement, humidity or
trigger operation is issued (nor is `close`). -/
theorem failed_begin_is_fatal (fuel euid : Nat) (argv0 : String)
    (opts : List (Char × String)) (svm : svm_par) (g : State)
    (h : (g.replies 2).ok = false) :
    (∃ g1, main fuel euid argv0 opts svm g = Final.exit EXIT_FAILURE g1)
    ∧ ∀ c ∈ callsOf (issued g (main fuel euid argv0 opts svm g).state),
        (∃ act, c = Call.EnableDebugging act) ∨ (∃ act, c = Call.SetTempCelsius act)
          ∨ c = Call.begin := by
  simp only [main]
  split
  · refine ⟨⟨_, rfl⟩, ?_⟩
    simp [Final.state, issued]
  · obtain ⟨q1, ⟨es, q2, q2e⟩, q3⟩ := parse_options_quiet opts (init_variables svm)
      { g with progname := argv0.take 20 }
    cases hp : parse_options opts (init_variables svm) { g with progname := argv0.take 20 } with
    | exit status g1 =>
      have hs := q3 status g1 hp
      subst hs
      refine ⟨⟨_, rfl⟩, ?_⟩
      rw [hp] at q2
      simp only [Ctl.state] at q2
      simp only [Final.state]
      rw [issued_append g g1 es q2, q2e]
      simp
    | ok svm1 g1 =>
      rw [hp] at q1 q2
      simp only [Ctl.state] at q1 q2
      have hb : (g1.replies 2).ok = false := by rw [q1]; exact h
      obtain ⟨g2, es2, e1, e2, e3⟩ := init_hw_begin_failed svm1 g1 hb
      simp only [e1]
      refine ⟨⟨_, rfl⟩, ?_⟩
      simp only [Final.state]
      rw [issued_append g g2 (es ++ es2) (by rw [e2, q2, List.append_assoc])]
      intro c hc
      simp only [callsOf_append, q2e, e3, List.nil_append, init_hw_calls] at hc
      simp only [List.mem_cons, List.mem_singleton, List.not_mem_nil, or_false] at hc
      rcases hc with rfl | rfl | rfl
      · exact Or.inl ⟨_, rfl⟩
      · exact Or.inr (Or.inl ⟨_, rfl⟩)
      · exact Or.inr (Or.inr rfl)

/-- C4 at a concrete run: root, no options, `begin` failing. -/
theorem failed_begin_is_fatal_witness :
    (State.begin_fails.replies 2).ok = false
    ∧ (∃ g1, main 5 0 "svm30" [] default State.begin_fails = Final.exit EXIT_FAILURE g1)
    ∧ ∀ c ∈ callsOf (issued State.begin_fails
          (main 5 0 "svm30" [] default State.begin_fails).state),
        (∃ act, c = Call.EnableDebugging act) ∨ (∃ act, c = Call.SetTempCelsius act)
          ∨ c = Call.begin :=
  ⟨rfl, failed_begin_is_fatal 5 0 "svm30" [] default State.begin_fails rfl⟩

/-! ## C5: the measurement test -/

theorem State.eq_of_fields {g1 g2 : State} (h1 : g1.NoColor = g2.NoColor)
    (h2 : g1.progname = g2.progname) (h3 : g1.replies = g2.replies)
    (h4 : g1.clock = g2.clock) (h5 : g1.strtod = g2.strtod) (h6 : g1.trace = g2.trace) :
    g1 = g2 := by
  cases g1; cases g2
  simp only [State.mk.injEq]
  exact ⟨h1, h2, h3, h4, h5, h6⟩

/-- The state in which the measurement loop is entered when the measurement
test was asked for and answered by `r`: the trace up to the test, the test
with its answer, the message that reports it; the replies still to come are
those after the test. -/
theorem main_loop_test_answered (svm : svm_par) (g : State) (r : Reply)
    (hm : svm.measure = true) (h1 : (g.replies 1).ok = true)
    (h2 : (g.replies 2).ok = true) (h3 : (g.replies 3).ok = true) :
    main_loop_test svm (p_printf GREEN "Starting SVM30 measurement:\n" []
        (disp_dev svm (g.answering 4 r)).2)
      = State.after
          ((p_printf GREEN "Starting SVM30 measurement:\n" [] (disp_dev svm g).2).trace
            ++ [Event.call Call.MeasureTest r,
                if r.ok then
                  Event.p_printf (if g.NoColor then WHITE else BLUE) "MeasureTest completed\n" []
                else
                  Event.p_printf (if g.NoColor then WHITE else RED) "MeasureTest failed\\n" []])
          { g with replies := fun i => g.replies (i + 5), trace := [] } := by
  apply State.eq_of_fields <;> cases h : r.ok <;>
    simp [main_loop_test, disp_dev, State.answering, lib, p_printf, State.after, hm, h1, h2,
      h3, h]

/-- A run of `main_loop` in which the measurement test was asked for and
answered by `r`: it is the run of the measurement loop from the state after the
test, put after the trace up to the test, the test and the message reporting it. -/
theorem main_loop_with_test (fuel : Nat) (svm : svm_par) (g : State) (r : Reply)
    (hm : svm.measure = true) (hd : svm.dev_info_only = false)
    (h1 : (g.replies 1).ok = true) (h2 : (g.replies 2).ok = true)
    (h3 : (g.replies 3).ok = true) :
    main_loop fuel svm (g.answering 4 r)
      = Run.after
          ((p_printf GREEN "Starting SVM30 measurement:\n" [] (disp_dev svm g).2).trace
            ++ [Event.call Call.MeasureTest r,
                if r.ok then
                  Event.p_printf (if g.NoColor then WHITE else BLUE) "MeasureTest completed\n" []
                else
                  Event.p_printf (if g.NoColor then WHITE else RED) "MeasureTest failed\\n" []])
          (main_loop_while fuel (if svm.loop_count > 0 then (svm.loop_count : Int) else 1) svm
            { g with replies := fun i => g.replies (i + 5), trace := [] }) := by
  rw [main_loop_start fuel svm (g.answering 4 r) (by simpa [State.answering] using h1)
    (by simpa [State.answering] using h2) (by simpa [State.answering] using h3) hd,
    main_loop_test_answered svm g r hm h1 h2 h3, main_loop_while_after]

/-- C5: a self-test failure is reported but not fatal.  With the measurement
test asked for (and `main_loop` getting as far as the test), take any
behaviour of the sensor and let the test be answered once by a reply `pass`
reporting success and once by a reply `fail` reporting failure.  The two
runs of `main_loop` have the same events before the test and the same events
after it, library calls and their replies included; they end alike, with the
same parameters.  The only difference is the reply of the test itself and
the message printed right after it. -/
theorem self_test_failure_is_not_fatal (fuel : Nat) (svm : svm_par) (g : State)
    (pass fail : Reply) (hm : svm.measure = true) (hd : svm.dev_info_only = false)
    (h1 : (g.replies 1).ok = true) (h2 : (g.replies 2).ok = true)
    (h3 : (g.replies 3).ok = true) (hp : pass.ok = true) (hf : fail.ok = false) :
    ∃ (before later : List Event),
      (main_loop fuel svm (g.answering 4 pass)).state.trace
        = before
          ++ [Event.call Call.MeasureTest pass,
              Event.p_printf (if g.NoColor then WHITE else BLUE) "MeasureTest completed\n" []]
          ++ later
      ∧ (main_loop fuel svm (g.answering 4 fail)).state.trace
        = before
          ++ [Event.call Call.MeasureTest fail,
              Event.p_printf (if g.NoColor then WHITE else RED) "MeasureTest failed\\n" []]
          ++ later
      ∧ (main_loop fuel svm (g.answering 4 pass)).par
          = (main_loop fuel svm (g.answering 4 fail)).par
      ∧ (main_loop fuel svm (g.answering 4 pass)).isReturned
          = (main_loop fuel svm (g.answering 4 fail)).isReturned
      ∧ (main_loop fuel svm (g.answering 4 pass)).state.replies
          = (main_loop fuel svm (g.answering 4 fail)).state.replies := by
  refine ⟨(p_printf GREEN "Starting SVM30 measurement:\n" [] (disp_dev svm g).2).trace,
    (main_loop_while fuel (if svm.loop_count > 0 then (svm.loop_count : Int) else 1) svm
      { g with replies := fun i => g.replies (i + 5), trace := [] }).state.trace, ?_⟩
  rw [main_loop_with_test fuel svm g pass hm hd h1 h2 h3,
    main_loop_with_test fuel svm g fail hm hd h1 h2 h3]
  simp [hp, hf]

/-- C5 at a concrete run: the test asked for, one measurement, a sensor that
succeeds in everything but, in the second run, the test. -/
theorem self_test_failure_is_not_fatal_witness :
    ({ svm_par.defaults with measure := true, loop_count := 1 } : svm_par).measure = true
    ∧ (Reply.success 0 default).ok = true ∧ Reply.failure.ok = false
    ∧ ∃ (before later : List Event),
      (main_loop 1 { svm_par.defaults with measure := true, loop_count := 1 }
          ((State.healthy 1).answering 4 (Reply.success 0 default))).state.trace
        = before
          ++ [Event.call Call.MeasureTest (Reply.success 0 default),
              Event.p_printf (if (State.healthy 1).NoColor then WHITE else BLUE)
                "MeasureTest completed\n" []]
          ++ later
      ∧ (main_loop 1 { svm_par.defaults with measure := true, loop_count := 1 }
          ((State.healthy 1).answering 4 Reply.failure)).state.trace
        = before
          ++ [Event.call Call.MeasureTest Reply.failure,
              Event.p_printf (if (State.healthy 1).NoColor then WHITE else RED)
                "MeasureTest failed\\n" []]
          ++ later
      ∧ (main_loop 1 { svm_par.defaults with measure := true, loop_count := 1 }
          ((State.healthy 1).answering 4 (Reply.success 0 default))).par
          = (main_loop 1 { svm_par.defaults with measure := true, loop_count := 1 }
              ((State.healthy 1).answering 4 Reply.failure)).par
      ∧ (main_loop 1 { svm_par.defaults with measure := true, loop_count := 1 }
          ((State.healthy 1).answering 4 (Reply.success 0 default))).isReturned
          = (main_loop 1 { svm_par.defaults with measure := true, loop_count := 1 }
              ((State.healthy 1).answering 4 Reply.failure)).isReturned
      ∧ (main_loop 1 { svm_par.defaults with measure := true, loop_count := 1 }
          ((State.healthy 1).answering 4 (Reply.success 0 default))).state.replies
          = (main_loop 1 { svm_par.defaults with measure := true, loop_count := 1 }
              ((State.healthy 1).answering 4 Reply.failure)).state.replies :=
  ⟨rfl, rfl, rfl,
   self_test_failure_is_not_fatal 1 { svm_par.defaults with measure := true, loop_count := 1 }
     (State.healthy 1) (Reply.success 0 default) Reply.failure rfl rfl rfl rfl rfl rfl rfl⟩

/-! ## C8: a requested baseline must be positive -/

theorem to_uint16_of_range (v : Nat) (h : v ≤ 65535) :
    to_uint16 (to_uint32 (v : Int)) = v := by
  simp only [to_uint16, to_uint32]
  omega

/-- Every option that `parse_cmdline` accepts keeps the baseline request well formed. -/
theorem parse_cmdline_keeps_request_positive (opt : Char) (option : String)
    (svm svm1 : svm_par) (g g1 : State) (hi : baseline_request_positive svm)
    (h : parse_cmdline opt option svm g = Ctl.ok svm1 g1) :
    baseline_request_positive svm1 := by
  unfold parse_cmdline at h
  unfold baseline_request_positive at hi ⊢
  split at h <;> (try dsimp only at h) <;> (try split_ifs at h) <;>
    simp only [Ctl.ok.injEq, reduceCtorEq] at h <;>
    obtain ⟨rfl, -⟩ := h <;> simp_all <;> omega

theorem parse_options_keeps_request_positive (opts : List (Char × String)) :
    ∀ (svm svm1 : svm_par) (g g1 : State), baseline_request_positive svm →
      parse_options opts svm g = Ctl.ok svm1 g1 → baseline_request_positive svm1 := by
  induction opts with
  | nil =>
    intro svm svm1 g g1 hi h
    simp only [parse_options, Ctl.ok.injEq] at h
    obtain ⟨rfl, -⟩ := h
    exact hi
  | cons o rest ih =>
    intro svm svm1 g g1 hi h
    obtain ⟨opt, optarg⟩ := o
    simp only [parse_options] at h
    cases hp : parse_cmdline opt optarg svm g with
    | ok svm2 g2 =>
      rw [hp] at h
      exact ih svm2 svm1 g2 g1 (parse_cmdline_keeps_request_positive _ _ _ _ _ _ hi hp) h
    | exit status g2 =>
      rw [hp] at h
      cases h

/-- C8: a requested baseline must be positive.  For option `c` (resp. `t`):
when the value stored in the 16-bit field is 0, `parse_cmdline` ends the
program with `EXIT_FAILURE`; for every value `v` in 1..65535 it stores `v` in
`baselineCo2` (resp. `baselineTVOC`), sets `setBaseline` and returns, changing
nothing else.  Hence after `main` has parsed any sequence of options without
`exit`, `setBaseline = true` implies `baselineCo2 > 0` or `baselineTVOC > 0`. -/
theorem requested_baseline_must_be_positive (option : String) (svm : svm_par) (g : State) :
    (to_uint16 (to_uint32 (g.strtod option)) = 0 →
      parse_cmdline 'c' option svm g
          = Ctl.exit EXIT_FAILURE
              (p_printf RED "Incorrect baseline Co2. Must be positive\n" [] g)
        ∧ parse_cmdline 't' option svm g
          = Ctl.exit EXIT_FAILURE
              (p_printf RED "Incorrect baseline TVOC. Must be positive\n" [] g))
    ∧ (∀ v : Nat, 1 ≤ v → v ≤ 65535 → g.strtod option = v →
        parse_cmdline 'c' option svm g
            = Ctl.ok { svm with baselineCo2 := v, setBaseline := true } g
          ∧ parse_cmdline 't' option svm g
            = Ctl.ok { svm with baselineTVOC := v, setBaseline := true } g)
    ∧ ∀ (opts : List (Char × String)) (svm1 : svm_par) (g1 : State),
        parse_options opts (init_variables svm) g = Ctl.ok svm1 g1 →
        svm1.setBaseline = true → svm1.baselineCo2 > 0 ∨ svm1.baselineTVOC > 0 := by
  refine ⟨?_, ?_, ?_⟩
  · intro h
    simp [parse_cmdline, h]
  · intro v h1 h2 hv
    have hc : to_uint16 (to_uint32 (g.strtod option)) = v := by
      rw [hv]; exact to_uint16_of_range v h2
    have hne : v ≠ 0 := by omega
    simp [parse_cmdline, hc, hne]
  · intro opts svm1 g1 h
    have hi : baseline_request_positive (init_variables svm) := by
      intro h0
      simp [init_variables] at h0
    exact parse_options_keeps_request_positive opts _ svm1 g g1 hi h

/-- C8 at concrete inputs: `-c 0` is refused, `-c 35187` is stored, and after
`-t 35000 -R` the request is positive. -/
theorem requested_baseline_must_be_positive_witness :
    parse_cmdline 'c' "0" svm_par.defaults (State.reading 0)
        = Ctl.exit EXIT_FAILURE
            (p_printf RED "Incorrect baseline Co2. Must be positive\n" [] (State.reading 0))
    ∧ parse_cmdline 'c' "35187" svm_par.defaults (State.reading 35187)
        = Ctl.ok { svm_par.defaults with baselineCo2 := 35187, setBaseline := true }
            (State.reading 35187)
    ∧ ∀ (svm1 : svm_par) (g1 : State),
        parse_options [('t', "35000"), ('R', "")] (init_variables svm_par.defaults)
            (State.reading 35000) = Ctl.ok svm1 g1 →
        svm1.setBaseline = true → svm1.baselineCo2 > 0 ∨ svm1.baselineTVOC > 0 :=
  ⟨((requested_baseline_must_be_positive "0" svm_par.defaults (State.reading 0)).1 rfl).1,
   ((requested_baseline_must_be_positive "35187" svm_par.defaults (State.reading 35187)).2.1
      35187 (by decide) (by decide) rfl).1,
   (requested_baseline_must_be_positive "" svm_par.defaults (State.reading 35000)).2.2
      [('t', "35000"), ('R', "")]⟩

/-! ## C10: device information only -/

theorem callsOf_eq_outline (es : List Event) :
    callsOf es = (outline es).filterMap Mark.toCall := by
  induction es with
  | nil => rfl
  | cons e es ih =>
    cases e with
    | call c r => simp [ih, Mark.toCall]
    | sleep n => simp [ih, Mark.toCall]
    | p_printf l f a =>
      simp only [callsOf_cons_p_printf, outline_cons_p_printf, ih]
      split <;> simp [Mark.toCall]
    | printf f a => simp [ih, Mark.toCall]

theorem disp_dev_trace (svm : svm_par) (g : State) :
    (disp_dev svm g).2.trace = g.trace ++ (disp_dev svm g.fresh).2.trace := by
  have h := disp_dev_after svm g.trace g.fresh
  rw [after_fresh] at h
  rw [h]; simp

/-- The library calls of `disp_dev`, whatever the sensor answers: the driver
version and `GetId(SGP30)`; then `GetId(SHTC1)` if that succeeded; then
`GetFeatureSet` if that succeeded too. -/
theorem callsOf_disp_dev (svm : svm_par) (g : State) :
    callsOf (issued g (disp_dev svm g).2)
      = if (g.replies 1).ok then
          if (g.replies 2).ok then disp_dev_calls else disp_dev_calls.take 3
        else disp_dev_calls.take 2 := by
  rw [issued_append g _ _ (disp_dev_trace svm g)]
  simp only [disp_dev]
  cases h1 : (g.replies 1).ok <;> cases h2 : (g.replies 2).ok <;>
    cases h3 : (g.replies 3).ok <;> simp [h1, h2, h3, disp_dev_calls]

/-- With `dev_info_only` set, `main_loop` returns right after `disp_dev`. -/
theorem main_loop_dev_info_only (fuel : Nat) (svm : svm_par) (g : State)
    (hd : svm.dev_info_only = true) :
    main_loop fuel svm g = Run.returned svm (disp_dev svm g).2 := by
  simp only [main_loop, hd, if_true]
  split <;> rfl

/-- C10: with the `-d` option (`dev_info_only`) set, `main_loop` displays the ID
numbers and the feature set only.  Whatever the other options and the sensor's
answers are, and for any budget of iterations, `main_loop` returns, and the
sensor operations it has issued are the first one, two or three of
`GetId(SGP30)`, `GetId(SHTC1)`, `GetFeatureSet`, in that order (all three when
the two identity reads succeed, fewer when one of them fails and `disp_dev`
gives up); the only other library call is the one for the driver's version.
So no self-test, baseline, `GetValues`, `SetHumidity` or `TriggerSGP30` call
is issued. -/
theorem dev_info_only_issues_identity_reads_only (fuel : Nat) (svm : svm_par) (g : State)
    (hd : svm.dev_info_only = true) :
    (main_loop fuel svm g).isReturned = true
    ∧ sensorOps (issued g (main_loop fuel svm g).state)
        <+: [Call.GetId SGP30, Call.GetId SHTC1, Call.GetFeatureSet]
    ∧ ((g.replies 1).ok = true → (g.replies 2).ok = true →
        sensorOps (issued g (main_loop fuel svm g).state)
          = [Call.GetId SGP30, Call.GetId SHTC1, Call.GetFeatureSet])
    ∧ callsOf (issued g (main_loop fuel svm g).state)
        = Call.GetDriverVersion :: sensorOps (issued g (main_loop fuel svm g).state) := by
  rw [main_loop_dev_info_only fuel svm g hd]
  simp only [Run.isReturned, Run.state, sensorOps, callsOf_disp_dev]
  cases h1 : (g.replies 1).ok <;> cases h2 : (g.replies 2).ok <;>
    simp [disp_dev_calls, Call.driverOnly, List.IsPrefix]

/-- C10 at a concrete run: `-d` with a sensor that always succeeds. -/
theorem dev_info_only_issues_identity_reads_only_witness :
    ({ svm_par.defaults with dev_info_only := true } : svm_par).dev_info_only = true
    ∧ (main_loop 0 { svm_par.defaults with dev_info_only := true }
        (State.healthy 1)).isReturned = true
    ∧ sensorOps (issued (State.healthy 1)
        (main_loop 0 { svm_par.defaults with dev_info_only := true } (State.healthy 1)).state)
        <+: [Call.GetId SGP30, Call.GetId SHTC1, Call.GetFeatureSet]
    ∧ ((((State.healthy 1).replies 1).ok = true → ((State.healthy 1).replies 2).ok = true →
        sensorOps (issued (State.healthy 1)
          (main_loop 0 { svm_par.defaults with dev_info_only := true }
            (State.healthy 1)).state)
          = [Call.GetId SGP30, Call.GetId SHTC1, Call.GetFeatureSet]))
    ∧ callsOf (issued (State.healthy 1)
        (main_loop 0 { svm_par.defaults with dev_info_only := true } (State.healthy 1)).state)
        = Call.GetDriverVersion :: sensorOps (issued (State.healthy 1)
            (main_loop 0 { svm_par.defaults with dev_info_only := true }
              (State.healthy 1)).state) :=
  ⟨rfl, dev_info_only_issues_identity_reads_only 0
    { svm_par.defaults with dev_info_only := true } (State.healthy 1) rfl⟩

/-! ## C9: humidity compensation -/

@[simp] theorem samples_nil : samples [] = [] := rfl

@[simp] theorem samples_cons_sleep (n : Nat) (es : List Event) :
    samples (Event.sleep n :: es) = samples es := rfl

@[simp] theorem samples_cons_p_printf (l : Nat) (f : String) (a : List Arg)
    (es : List Event) : samples (Event.p_printf l f a :: es) = samples es := rfl

@[simp] theorem samples_cons_printf (f : String) (a : List Arg) (es : List Event) :
    samples (Event.printf f a :: es) = samples es := rfl

@[simp] theorem samples_cons_GetValues (raw : Bool) (r : Reply) (es : List Event) :
    samples (Event.call (Call.GetValues raw) r :: es) = (raw, r) :: samples es := rfl

theorem samples_cons_other (c : Call) (r : Reply) (es : List Event)
    (h : ∀ raw, c ≠ Call.GetValues raw) :
    samples (Event.call c r :: es) = samples es := by
  cases c <;> first | rfl | exact absurd rfl (h _)

@[simp] theorem samples_append (xs ys : List Event) :
    samples (xs ++ ys) = samples xs ++ samples ys := by
  induction xs with
  | nil => rfl
  | cons e es ih =>
    cases e with
    | call c r =>
      cases c <;> simp [samples, ih]
    | sleep n => simp [ih]
    | p_printf l f a => simp [ih]
    | printf f a => simp [ih]

theorem mem_samples (raw : Bool) (r : Reply) (es : List Event) :
    Event.call (Call.GetValues raw) r ∈ es ↔ (raw, r) ∈ samples es := by
  induction es with
  | nil => simp
  | cons e es ih =>
    cases e with
    | call c r1 =>
      cases c <;> simp [samples, ih]
    | sleep n => simp [ih]
    | p_printf l f a => simp [ih]
    | printf f a => simp [ih]

theorem samples_set_baseline (svm : svm_par) (g : State) :
    samples (set_baseline svm g).2.2.trace = samples g.trace := by
  simp only [set_baseline, set_baseline_tvoc]
  split
  · simp [samples]
  · split
    · simp [samples]
    · split
      · split
        · simp [samples]
        · split
          · split <;> simp [samples]
          · simp [samples]
      · split
        · split <;> simp [samples]
        · simp [samples]

theorem samples_do_output (svm : svm_par) (g : State) :
    samples (do_output svm g).trace = samples g.trace := by
  have t : samples (do_output_timestamp svm g).trace = samples g.trace := by
    simp only [do_output_timestamp]; split <;> simp
  have a : ∀ o g, samples (do_output_AirQual svm o g).2.trace = samples g.trace := by
    intro o g; simp only [do_output_AirQual]; split <;> simp
  have r : ∀ o g, samples (do_output_raw svm o g).2.trace = samples g.trace := by
    intro o g; simp only [do_output_raw]; split <;> simp
  have h : ∀ c o g, samples (do_output_HumTemp svm c o g).2.trace = samples g.trace := by
    intro c o g; simp only [do_output_HumTemp]; split <;> simp
  have d : ∀ c o g, samples (do_output_DewPoint svm c o g).2.trace = samples g.trace := by
    intro c o g; simp only [do_output_DewPoint]; split <;> simp
  have i : ∀ c o g, samples (do_output_HeatInd svm c o g).2.trace = samples g.trace := by
    intro c o g; simp only [do_output_HeatInd]; split <;> simp
  have u : ∀ o g, samples (do_output_AbsHum svm o g).2.trace = samples g.trace := by
    intro o g; simp only [do_output_AbsHum]; split <;> simp
  have b : ∀ o g, samples (do_output_DispBaseline svm o g).2.trace = samples g.trace := by
    intro o g; simp only [do_output_DispBaseline]
    split
    · split <;> simp [samples]
    · rfl
  have e : ∀ o g, samples (do_output_end o g).trace = samples g.trace := by
    intro o g; simp only [do_output_end]; split <;> simp
  simp only [do_output, e, b, u, i, d, h, r, a, t]

theorem samples_do_humidityComp (svm : svm_par) (g : State) :
    samples (do_humidityComp svm g).2.trace = samples g.trace := by
  simp only [do_humidityComp]
  split
  · rfl
  · split <;> simp [samples]

theorem samples_delay_loop (wait : Nat) (g : State) :
    samples (delay_loop wait g).2.trace = samples g.trace := by
  induction wait generalizing g with
  | zero => rfl
  | succ n ih =>
    simp only [delay_loop]
    split
    · simp [samples]
    · rw [ih]; simp [samples]

/-- The part of a measurement cycle from `GetValues` on, whatever the sensor
answers: `GetValues` is called once, and when it succeeds the sample is
displayed, the humidity compensation is set with the sample's absolute
humidity when selected, and the delay loop makes some turns. -/
theorem main_loop_measure_any (loop_set : Int) (svm : svm_par) (g : State) :
    samples (main_loop_measure loop_set svm g).state.trace
        = samples g.trace ++ [(svm.raw, g.replies 0)]
    ∧ ((g.replies 0).ok = true →
        ∃ k, outline (main_loop_measure loop_set svm g).state.trace
          = outline g.trace ++ measure_outline svm (g.replies 0).values.absolute_hum k) := by
  simp only [main_loop_measure]
  cases h0 : (g.replies 0).ok
  · simp [Step.state, h0]
  · simp only [lib_reply, h0, if_true, true_implies]
    split
    · refine ⟨?_, 0, ?_⟩
      · simp [Step.state, samples_do_humidityComp, samples_do_output]
      · simp [Step.state, outline_do_humidityComp, outline_do_output, measure_outline,
          delay_turns]
    · obtain ⟨k, -, hk⟩ := outline_delay_loop (to_uint8 svm.loop_delay)
        (do_humidityComp { svm with v := (g.replies 0).values }
          (do_output { svm with v := (g.replies 0).values }
            (lib (Call.GetValues svm.raw) g).2)).2
      split
      · refine ⟨?_, k, ?_⟩
        · simp [Step.state, samples_delay_loop, samples_do_humidityComp, samples_do_output]
        · simp only [Step.state, hk]
          simp [outline_do_humidityComp, outline_do_output, measure_outline]
      · refine ⟨?_, k, ?_⟩
        · simp [Step.state, samples_delay_loop, samples_do_humidityComp, samples_do_output]
        · simp only [Step.state, hk]
          simp [outline_do_humidityComp, outline_do_output, measure_outline]

theorem humidity_calls_delay_turns (k : Nat) :
    (delay_turns k).filterMap (fun m =>
      match m with
      | Mark.call (Call.SetHumidity h) => some h
      | _ => none) = [] := by
  induction k with
  | zero => rfl
  | succ n ih => simp [delay_turns, delay_turn, ih]

theorem humidity_calls_measure_outline (svm : svm_par) (a : CFloat) (k : Nat) :
    (measure_outline svm a k).filterMap (fun m =>
      match m with
      | Mark.call (Call.SetHumidity h) => some h
      | _ => none) = if svm.humComp then [a] else [] := by
  simp only [measure_outline, List.filterMap_cons, List.filterMap_append,
    humidity_calls_delay_turns]
  cases svm.DispBaseline <;> cases svm.humComp <;> simp

theorem humidity_calls_baseline (svm : svm_par) (cs : List Call)
    (h : ∀ c ∈ cs, c = Call.SetBaseLine_CO2 svm.baselineCo2
          ∨ c = Call.SetBaseLine_TVOC svm.baselineTVOC) :
    (cs.map Mark.call).filterMap (fun m =>
      match m with
      | Mark.call (Call.SetHumidity h) => some h
      | _ => none) = [] := by
  rw [List.filterMap_eq_nil_iff]
  intro m hm
  obtain ⟨c, hc, rfl⟩ := List.mem_map.1 hm
  rcases h c hc with rfl | rfl <;> rfl

/-- C9 for a pass that starts from an empty trace. -/
theorem humidity_calls_of_pass (loop_set : Int) (svm : svm_par) (g : State)
    (hg : g.trace = []) (raw : Bool) (r : Reply)
    (hmem : (raw, r) ∈ samples (main_loop_body loop_set svm g).state.trace)
    (hok : r.ok = true) :
    humidity_calls (main_loop_body loop_set svm g).state.trace
      = if svm.humComp then [r.values.absolute_hum] else [] := by
  simp only [main_loop_body] at hmem ⊢
  split at hmem
  · rename_i hset
    simp only [hset, if_true]
    split at hmem
    · rename_i hfail
      simp only [Step.state, samples_set_baseline, hg, samples_nil, List.not_mem_nil] at hmem
    · rename_i hgo
      rw [if_neg hgo]
      obtain ⟨s1, s2⟩ := main_loop_measure_any loop_set (set_baseline svm g).2.1
        (set_baseline svm g).2.2
      obtain ⟨-, -, -, -, f5, -, -⟩ := set_baseline_par_fields svm g
      obtain ⟨cs, c1, c2⟩ := outline_set_baseline svm g
      rw [s1, samples_set_baseline, hg] at hmem
      simp only [samples_nil, List.nil_append, List.mem_singleton, Prod.mk.injEq] at hmem
      obtain ⟨-, rfl⟩ := hmem
      obtain ⟨k, hk⟩ := s2 hok
      rw [humidity_calls, hk, c1, hg]
      simp only [outline_nil, List.nil_append, List.filterMap_append, List.filterMap_cons,
        humidity_calls_baseline svm cs c2, humidity_calls_measure_outline, f5]
  · rename_i hset
    simp only [hset, Bool.false_eq_true, if_false]
    obtain ⟨s1, s2⟩ := main_loop_measure_any loop_set svm g
    rw [s1, hg] at hmem
    simp only [samples_nil, List.nil_append, List.mem_singleton, Prod.mk.injEq] at hmem
    obtain ⟨-, rfl⟩ := hmem
    obtain ⟨k, hk⟩ := s2 hok
    rw [humidity_calls, hk, hg]
    simp only [outline_nil, List.nil_append, humidity_calls_measure_outline]

/-- C9: humidity compensation is applied exactly when enabled, with the
sample's absolute humidity.  In every pass through the body of the
measurement loop, whatever the parameters and the sensor's answers: if the
pass contains a `GetValues` call that succeeded, with reply `r`, then the
`SetHumidity` calls of that pass are exactly one call with the `absolute_hum`
of the sample of `r` when `humComp` is set, and none when it is not; and with
`humComp` not set `do_humidityComp` returns true without doing anything. -/
theorem humidity_compensation_when_enabled (loop_set : Int) (svm : svm_par) (g : State) :
    (∀ (raw : Bool) (r : Reply),
        Event.call (Call.GetValues raw) r ∈ issued g (main_loop_body loop_set svm g).state →
        r.ok = true →
        humidity_calls (issued g (main_loop_body loop_set svm g).state)
          = if svm.humComp then [r.values.absolute_hum] else [])
    ∧ (svm.humComp = false → do_humidityComp svm g = (true, g)) := by
  refine ⟨?_, ?_⟩
  · intro raw r hmem hok
    rw [issued_append g _ _ (main_loop_body_trace loop_set svm g)] at hmem ⊢
    exact humidity_calls_of_pass loop_set svm g.fresh rfl raw r
      ((mem_samples raw r _).1 hmem) hok
  · intro h
    simp [do_humidityComp, h]

/-- C9 at a concrete pass: compensation selected, a sensor that answers every
call with success and a sample of absolute humidity `⟨7⟩`. -/
theorem humidity_compensation_when_enabled_witness :
    Event.call (Call.GetValues false)
        (Reply.success 1 { (default : svm_values) with absolute_hum := ⟨7⟩ })
      ∈ issued (State.start fun _ =>
            Reply.success 1 { (default : svm_values) with absolute_hum := ⟨7⟩ })
          (main_loop_body 1 { svm_par.defaults with humComp := true }
            (State.start fun _ =>
              Reply.success 1 { (default : svm_values) with absolute_hum := ⟨7⟩ })).state
    ∧ humidity_calls (issued (State.start fun _ =>
            Reply.success 1 { (default : svm_values) with absolute_hum := ⟨7⟩ })
          (main_loop_body 1 { svm_par.defaults with humComp := true }
            (State.start fun _ =>
              Reply.success 1 { (default : svm_values) with absolute_hum := ⟨7⟩ })).state)
        = (if ({ svm_par.defaults with humComp := true } : svm_par).humComp then
            [(Reply.success 1
              { (default : svm_values) with absolute_hum := ⟨7⟩ }).values.absolute_hum]
          else []) :=
  ⟨by decide,
   (humidity_compensation_when_enabled 1 { svm_par.defaults with humComp := true }
      (State.start fun _ =>
        Reply.success 1 { (default : svm_values) with absolute_hum := ⟨7⟩ })).1 false
      (Reply.success 1 { (default : svm_values) with absolute_hum := ⟨7⟩ })
      (by decide) rfl⟩

/-! ## C13: the display options -/

/-- C13: the display options are independently togglable.  For each of the
options `A`, `E`, `J`, `G`, `F`, `H`, `B`, `R`, `T` and `v`, `parse_cmdline`
returns with exactly the one flag of that option inverted (`AirQual`,
`DewPoint`, `AbsHum`, `HeatInd`, `tempCel`, `HumTemp`, `DispBaseline`, `raw`,
`timestamp`, `verbose` respectively), every other field of the parameters as
it was, and the global state, `NoColor` included, untouched and nothing
printed; giving the same option a second time restores the parameters. -/
theorem display_options_toggle_independently (option : String) (svm : svm_par) (g : State) :
    parse_cmdline 'A' option svm g = Ctl.ok { svm with AirQual := !svm.AirQual } g
    ∧ parse_cmdline 'E' option svm g = Ctl.ok { svm with DewPoint := !svm.DewPoint } g
    ∧ parse_cmdline 'J' option svm g = Ctl.ok { svm with AbsHum := !svm.AbsHum } g
    ∧ parse_cmdline 'G' option svm g = Ctl.ok { svm with HeatInd := !svm.HeatInd } g
    ∧ parse_cmdline 'F' option svm g = Ctl.ok { svm with tempCel := !svm.tempCel } g
    ∧ parse_cmdline 'H' option svm g = Ctl.ok { svm with HumTemp := !svm.HumTemp } g
    ∧ parse_cmdline 'B' option svm g
        = Ctl.ok { svm with DispBaseline := !svm.DispBaseline } g
    ∧ parse_cmdline 'R' option svm g = Ctl.ok { svm with raw := !svm.raw } g
    ∧ parse_cmdline 'T' option svm g = Ctl.ok { svm with timestamp := !svm.timestamp } g
    ∧ parse_cmdline 'v' option svm g = Ctl.ok { svm with verbose := !svm.verbose } g
    ∧ ∀ opt ∈ ['A', 'E', 'J', 'G', 'F', 'H', 'B', 'R', 'T', 'v'],
        ∃ svm1, parse_cmdline opt option svm g = Ctl.ok svm1 g
          ∧ parse_cmdline opt option svm1 g = Ctl.ok svm g := by
  refine ⟨rfl, rfl, rfl, rfl, rfl, rfl, rfl, rfl, rfl, rfl, ?_⟩
  intro opt hopt
  simp only [List.mem_cons, List.mem_singleton, List.not_mem_nil, or_false] at hopt
  rcases hopt with rfl | rfl | rfl | rfl | rfl | rfl | rfl | rfl | rfl | rfl
  · exact ⟨_, rfl, by simp [parse_cmdline]⟩
  · exact ⟨_, rfl, by simp [parse_cmdline]⟩
  · exact ⟨_, rfl, by simp [parse_cmdline]⟩
  · exact ⟨_, rfl, by simp [parse_cmdline]⟩
  · exact ⟨_, rfl, by simp [parse_cmdline]⟩
  · exact ⟨_, rfl, by simp [parse_cmdline]⟩
  · exact ⟨_, rfl, by simp [parse_cmdline]⟩
  · exact ⟨_, rfl, by simp [parse_cmdline]⟩
  · exact ⟨_, rfl, by simp [parse_cmdline]⟩
  · exact ⟨_, rfl, by simp [parse_cmdline]⟩

/-! ## C15, C16: `set_baseline` in full -/

/-- C16: the order of the baseline writes.  Whenever `set_baseline` issues both
writes (the read of the TVOC baseline succeeds with a non-zero value,
`baselineCo2 > 0`, `baselineTVOC > 0`, and the CO2 write succeeds), its library
calls are exactly `GetBaseLine_TVOC`, then `SetBaseLine_CO2 baselineCo2`, then
`SetBaseLine_TVOC baselineTVOC`. -/
theorem set_baseline_writes_co2_then_tvoc (svm : svm_par) (g : State)
    (hread : (g.replies 0).ok = true) (hsettled : (g.replies 0).baseline ≠ 0)
    (hco2 : svm.baselineCo2 > 0) (htvoc : svm.baselineTVOC > 0)
    (hwrite : (g.replies 1).ok = true) :
    callsOf (issued g (set_baseline svm g).2.2)
      = [Call.GetBaseLine_TVOC, Call.SetBaseLine_CO2 svm.baselineCo2,
         Call.SetBaseLine_TVOC svm.baselineTVOC] := by
  simp only [set_baseline, set_baseline_tvoc, lib_reply, lib_replies, hread, hwrite,
    Bool.not_true, Bool.false_eq_true, if_false, beq_iff_eq, hsettled, hco2, htvoc, if_true]
  split <;> simp [issued]

/-- C16 at a concrete request: `-c 35187 -t 35000` with a settled sensor. -/
theorem set_baseline_writes_co2_then_tvoc_witness :
    ((State.healthy 1).replies 0).ok = true ∧ ((State.healthy 1).replies 0).baseline ≠ 0
    ∧ callsOf (issued (State.healthy 1)
        (set_baseline
          { svm_par.defaults with baselineCo2 := 35187, baselineTVOC := 35000,
                                  setBaseline := true }
          (State.healthy 1)).2.2)
      = [Call.GetBaseLine_TVOC, Call.SetBaseLine_CO2 35187, Call.SetBaseLine_TVOC 35000] :=
  ⟨rfl, by decide,
   set_baseline_writes_co2_then_tvoc
     { svm_par.defaults with baselineCo2 := 35187, baselineTVOC := 35000,
                             setBaseline := true }
     (State.healthy 1) rfl (by decide) (by decide) (by decide) rfl⟩

@[simp] theorem repliesOf_nil : repliesOf [] = [] := rfl

@[simp] theorem repliesOf_cons_call (c : Call) (r : Reply) (es : List Event) :
    repliesOf (Event.call c r :: es) = r :: repliesOf es := rfl

@[simp] theorem repliesOf_cons_p_printf (l : Nat) (f : String) (a : List Arg)
    (es : List Event) : repliesOf (Event.p_printf l f a :: es) = repliesOf es := rfl

/-- C15: `set_baseline` propagates sensor failures without going on.  With
`rs` the replies of the library calls it issued (`GetBaseLine_TVOC`,
`SetBaseLine_CO2`, `SetBaseLine_TVOC`), in order: it returns false if and only
if one of them reports failure; every call but the last one succeeded, so no
call follows a failing one; when it returns false the parameters, with
`setBaseline`, are unchanged; and it clears `setBaseline` (changing nothing
else) exactly when the baseline read was non-zero and every call it issued
succeeded, leaving the parameters as they were otherwise. -/
theorem set_baseline_propagates_failures (svm : svm_par) (g : State) :
    ((set_baseline svm g).1 = false
      ↔ ∃ r ∈ repliesOf (issued g (set_baseline svm g).2.2), r.ok = false)
    ∧ (∀ r ∈ (repliesOf (issued g (set_baseline svm g).2.2)).dropLast, r.ok = true)
    ∧ ((set_baseline svm g).1 = false → (set_baseline svm g).2.1 = svm)
    ∧ (((g.replies 0).baseline ≠ 0
          ∧ ∀ r ∈ repliesOf (issued g (set_baseline svm g).2.2), r.ok = true) →
        (set_baseline svm g).2.1 = { svm with setBaseline := false })
    ∧ (¬ ((g.replies 0).baseline ≠ 0
          ∧ ∀ r ∈ repliesOf (issued g (set_baseline svm g).2.2), r.ok = true) →
        (set_baseline svm g).2.1 = svm) := by
  simp only [set_baseline, set_baseline_tvoc, lib_reply, lib_replies]
  by_cases h0 : (g.replies 0).ok = true <;> by_cases hb : (g.replies 0).baseline = 0 <;>
    by_cases hc : svm.baselineCo2 > 0 <;> by_cases ht : svm.baselineTVOC > 0 <;>
    by_cases h1 : (g.replies 1).ok = true <;> by_cases h2 : (g.replies 2).ok = true <;>
    simp [*, issued]

/-! ## C14: a requested baseline is written at most once -/

theorem no_writes_delay_turns (k : Nat) :
    (delay_turns k).countP Mark.isWriteCO2 = 0
    ∧ (delay_turns k).countP Mark.isWriteTVOC = 0 := by
  induction k with
  | zero => simp [delay_turns]
  | succ n ih =>
    simp [delay_turns, delay_turn, ih.1, ih.2, Mark.isWriteCO2, Mark.isWriteTVOC]

theorem no_writes_measure_outline (svm : svm_par) (a : CFloat) (k : Nat) :
    (measure_outline svm a k).countP Mark.isWriteCO2 = 0
    ∧ (measure_outline svm a k).countP Mark.isWriteTVOC = 0 := by
  obtain ⟨h1, h2⟩ := no_writes_delay_turns k
  constructor
  · simp only [measure_outline, List.countP_cons, List.countP_append, h1]
    cases svm.DispBaseline <;> cases svm.humComp <;> simp [Mark.isWriteCO2]
  · simp only [measure_outline, List.countP_cons, List.countP_append, h2]
    cases svm.DispBaseline <;> cases svm.humComp <;> simp [Mark.isWriteTVOC]

/-- The part of the cycle from `GetValues` on writes no baseline, whatever the
sensor answers. -/
theorem main_loop_measure_no_writes (loop_set : Int) (svm : svm_par) (g : State) :
    writes_CO2 (main_loop_measure loop_set svm g).state.trace = writes_CO2 g.trace
    ∧ writes_TVOC (main_loop_measure loop_set svm g).state.trace = writes_TVOC g.trace := by
  cases h0 : (g.replies 0).ok
  · simp [main_loop_measure, h0, Step.state, writes_CO2, writes_TVOC, Mark.isWriteCO2,
      Mark.isWriteTVOC]
  · obtain ⟨k, hk⟩ := (main_loop_measure_any loop_set svm g).2 h0
    obtain ⟨h1, h2⟩ := no_writes_measure_outline svm (g.replies 0).values.absolute_hum k
    simp only [writes_CO2, writes_TVOC, hk, List.countP_append, h1, h2, Nat.add_zero,
      and_self]

/-- What `set_baseline` adds to the number of baseline writes: at most one of
each kind, and none when it returns true with the request still pending. -/
theorem set_baseline_writes (svm : svm_par) (g : State) :
    (writes_CO2 (set_baseline svm g).2.2.trace
        + ((set_baseline svm g).1 && (set_baseline svm g).2.1.setBaseline).toNat
      ≤ writes_CO2 g.trace + 1)
    ∧ (writes_TVOC (set_baseline svm g).2.2.trace
        + ((set_baseline svm g).1 && (set_baseline svm g).2.1.setBaseline).toNat
      ≤ writes_TVOC g.trace + 1) := by
  simp only [set_baseline, set_baseline_tvoc, lib_reply, lib_replies]
  by_cases h0 : (g.replies 0).ok = true <;> by_cases hb : (g.replies 0).baseline = 0 <;>
    by_cases hc : svm.baselineCo2 > 0 <;> by_cases ht : svm.baselineTVOC > 0 <;>
    by_cases h1 : (g.replies 1).ok = true <;> by_cases h2 : (g.replies 2).ok = true <;>
    simp [*, writes_CO2, writes_TVOC, Mark.isWriteCO2, Mark.isWriteTVOC] <;>
    (try cases svm.setBaseline <;> simp)

theorem main_loop_measure_pending (loop_set : Int) (svm : svm_par) (g : State) :
    (main_loop_measure loop_set svm g).pending ≤ svm.setBaseline.toNat := by
  have h := (main_loop_measure_keeps_request loop_set svm g).1
  cases hm : main_loop_measure loop_set svm g with
  | next l svm1 g1 =>
    rw [hm] at h
    simp only [Step.par] at h
    simp [Step.pending, h]
  | ret svm1 g1 => simp [Step.pending]

theorem main_loop_body_eq (loop_set : Int) (svm : svm_par) (g : State) :
    main_loop_body loop_set svm g
      = if svm.setBaseline then
          if !(set_baseline svm g).1 then
            Step.ret (set_baseline svm g).2.1 (set_baseline svm g).2.2
          else main_loop_measure loop_set (set_baseline svm g).2.1 (set_baseline svm g).2.2
        else main_loop_measure loop_set svm g := rfl

/-- A pass through the loop body, whatever the sensor answers: the baseline
writes made so far, plus the one that may still come, do not exceed what they
were before the pass. -/
theorem main_loop_body_writes (loop_set : Int) (svm : svm_par) (g : State) :
    (writes_CO2 (main_loop_body loop_set svm g).state.trace
        + (main_loop_body loop_set svm g).pending
      ≤ writes_CO2 g.trace + svm.setBaseline.toNat)
    ∧ (writes_TVOC (main_loop_body loop_set svm g).state.trace
        + (main_loop_body loop_set svm g).pending
      ≤ writes_TVOC g.trace + svm.setBaseline.toNat) := by
  rw [main_loop_body_eq]
  split
  · rename_i hset
    obtain ⟨w1, w2⟩ := set_baseline_writes svm g
    split
    · rename_i hfail
      simp only [Step.state, Step.pending, hset, Bool.toNat_true, Nat.add_zero]
      constructor <;> omega
    · rename_i hgo
      have hok : (set_baseline svm g).1 = true := by simpa using hgo
      rw [hok, Bool.true_and] at w1 w2
      obtain ⟨m1, m2⟩ := main_loop_measure_no_writes loop_set (set_baseline svm g).2.1
        (set_baseline svm g).2.2
      have mp := main_loop_measure_pending loop_set (set_baseline svm g).2.1
        (set_baseline svm g).2.2
      rw [m1, m2, hset]
      simp only [Bool.toNat_true]
      constructor <;> omega
  · obtain ⟨m1, m2⟩ := main_loop_measure_no_writes loop_set svm g
    have mp := main_loop_measure_pending loop_set svm g
    rw [m1, m2]
    constructor <;> omega

/-- The measurement loop, whatever the sensor answers and for any budget of
iterations: it adds at most one baseline write of each kind, and none when no
request is pending. -/
theorem main_loop_while_writes (fuel : Nat) :
    ∀ (loop_set : Int) (svm : svm_par) (g : State),
      writes_CO2 (main_loop_while fuel loop_set svm g).state.trace
          ≤ writes_CO2 g.trace + svm.setBaseline.toNat
      ∧ writes_TVOC (main_loop_while fuel loop_set svm g).state.trace
          ≤ writes_TVOC g.trace + svm.setBaseline.toNat := by
  induction fuel with
  | zero =>
    intro loop_set svm g
    unfold main_loop_while
    split
    · simp [Run.state]
    · simp [Run.state, writes_CO2, writes_TVOC, Mark.isWriteCO2, Mark.isWriteTVOC]
  | succ n ih =>
    intro loop_set svm g
    unfold main_loop_while
    split
    · obtain ⟨b1, b2⟩ := main_loop_body_writes loop_set svm g
      cases hb : main_loop_body loop_set svm g with
      | ret svm1 g1 =>
        rw [hb] at b1 b2
        simp only [Step.state, Step.pending, Nat.add_zero] at b1 b2
        exact ⟨b1, b2⟩
      | next l1 svm1 g1 =>
        rw [hb] at b1 b2
        simp only [Step.state, Step.pending] at b1 b2
        obtain ⟨i1, i2⟩ := ih l1 svm1 g1
        simp only []
        constructor <;> omega
    · simp [Run.state, writes_CO2, writes_TVOC, Mark.isWriteCO2, Mark.isWriteTVOC]

theorem disp_dev_no_writes (svm : svm_par) (g : State) :
    writes_CO2 (disp_dev svm g).2.trace = writes_CO2 g.trace
    ∧ writes_TVOC (disp_dev svm g).2.trace = writes_TVOC g.trace := by
  obtain ⟨k, hk⟩ := outline_disp_dev svm g
  have h : ∀ m ∈ (disp_dev_calls.take k).map Mark.call,
      Mark.isWriteCO2 m = false ∧ Mark.isWriteTVOC m = false := by
    intro m hm
    obtain ⟨c, hc, rfl⟩ := List.mem_map.1 hm
    have hc2 := List.mem_of_mem_take hc
    simp only [disp_dev_calls, List.mem_cons, List.mem_singleton, List.not_mem_nil,
      or_false] at hc2
    rcases hc2 with rfl | rfl | rfl | rfl <;> exact ⟨rfl, rfl⟩
  have z1 : ((disp_dev_calls.take k).map Mark.call).countP Mark.isWriteCO2 = 0 :=
    List.countP_eq_zero.2 fun m hm => by simp [(h m hm).1]
  have z2 : ((disp_dev_calls.take k).map Mark.call).countP Mark.isWriteTVOC = 0 :=
    List.countP_eq_zero.2 fun m hm => by simp [(h m hm).2]
  simp only [writes_CO2, writes_TVOC, hk, List.countP_append, z1, z2, Nat.add_zero,
    and_self]

theorem main_loop_test_no_writes (svm : svm_par) (g : State) :
    writes_CO2 (main_loop_test svm g).trace = writes_CO2 g.trace
    ∧ writes_TVOC (main_loop_test svm g).trace = writes_TVOC g.trace := by
  simp only [writes_CO2, writes_TVOC, outline_main_loop_test]
  cases svm.measure <;> simp [Mark.isWriteCO2, Mark.isWriteTVOC]

/-- A run of `main_loop`, whatever the sensor answers: at most one baseline
write of each kind more than before, none without a request. -/
theorem main_loop_writes (fuel : Nat) (svm : svm_par) (g : State) :
    writes_CO2 (main_loop fuel svm g).state.trace
        ≤ writes_CO2 g.trace + svm.setBaseline.toNat
    ∧ writes_TVOC (main_loop fuel svm g).state.trace
        ≤ writes_TVOC g.trace + svm.setBaseline.toNat := by
  obtain ⟨d1, d2⟩ := disp_dev_no_writes svm g
  simp only [main_loop]
  split
  · simp only [Run.state, d1, d2]
    constructor <;> omega
  · split
    · simp only [Run.state, d1, d2]
      constructor <;> omega
    · obtain ⟨w1, w2⟩ := main_loop_while_writes fuel
        (if svm.loop_count > 0 then (svm.loop_count : Int) else 1) svm
        (main_loop_test svm
          (p_printf GREEN "Starting SVM30 measurement:\n" [] (disp_dev svm g).2))
      obtain ⟨t1, t2⟩ := main_loop_test_no_writes svm
        (p_printf GREEN "Starting SVM30 measurement:\n" [] (disp_dev svm g).2)
      have p1 : writes_CO2 (p_printf GREEN "Starting SVM30 measurement:\n" []
          (disp_dev svm g).2).trace = writes_CO2 (disp_dev svm g).2.trace := by
        simp [writes_CO2]
      have p2 : writes_TVOC (p_printf GREEN "Starting SVM30 measurement:\n" []
          (disp_dev svm g).2).trace = writes_TVOC (disp_dev svm g).2.trace := by
        simp [writes_TVOC]
      rw [t1, p1, d1] at w1
      rw [t2, p2, d2] at w2
      exact ⟨w1, w2⟩

/-- C14: a requested baseline is written at most once per run.  In every run
of `main_loop`, for any budget of iterations, whatever the sensor calls
return and whatever the parameters are, `SetBaseLine_CO2` is called at most
once and `SetBaseLine_TVOC` is called at most once (and neither is called
without a request).  The reason: a call of `set_baseline` that issued a write
either returns false, and then the pass through the loop body ends
`main_loop`, or has cleared `setBaseline`. -/
theorem baseline_written_at_most_once (fuel : Nat) (svm : svm_par) (g : State) :
    writes_CO2 (issued g (main_loop fuel svm g).state) ≤ 1
    ∧ writes_TVOC (issued g (main_loop fuel svm g).state) ≤ 1
    ∧ (svm.setBaseline = false →
        writes_CO2 (issued g (main_loop fuel svm g).state) = 0
        ∧ writes_TVOC (issued g (main_loop fuel svm g).state) = 0)
    ∧ (0 < writes_CO2 (issued g (set_baseline svm g).2.2)
          + writes_TVOC (issued g (set_baseline svm g).2.2) →
        (set_baseline svm g).1 = false ∨ (set_baseline svm g).2.1.setBaseline = false)
    ∧ ((set_baseline svm g).1 = false → svm.setBaseline = true →
        ∀ loop_set, main_loop_body loop_set svm g
          = Step.ret (set_baseline svm g).2.1 (set_baseline svm g).2.2) := by
  obtain ⟨w1, w2⟩ := main_loop_writes fuel svm g.fresh
  have z1 : writes_CO2 g.fresh.trace = 0 := rfl
  have z2 : writes_TVOC g.fresh.trace = 0 := rfl
  rw [z1] at w1
  rw [z2] at w2
  have hb := Bool.toNat_le svm.setBaseline
  rw [issued_main_loop]
  refine ⟨by omega, by omega, ?_, ?_, ?_⟩
  · intro h
    rw [h] at w1 w2
    simp only [Bool.toNat_false] at w1 w2
    constructor <;> omega
  · intro hpos
    rw [issued_append g _ _ (set_baseline_trace svm g)] at hpos
    obtain ⟨s1, s2⟩ := set_baseline_writes svm g.fresh
    have e := set_baseline_after svm g.trace g.fresh
    rw [after_fresh] at e
    have e1 : (set_baseline svm g).1 = (set_baseline svm g.fresh).1 := by rw [e]
    have e2 : (set_baseline svm g).2.1 = (set_baseline svm g.fresh).2.1 := by rw [e]
    rw [e1, e2]
    rw [z1] at s1
    rw [z2] at s2
    cases h1 : (set_baseline svm g.fresh).1
    · exact Or.inl rfl
    · cases h2 : (set_baseline svm g.fresh).2.1.setBaseline
      · exact Or.inr rfl
      · rw [h1, h2] at s1 s2
        simp only [Bool.and_self, Bool.toNat_true] at s1 s2
        omega
  · intro hf hs loop_set
    rw [main_loop_body_eq]
    simp [hs, hf]

/-! ## C17: the display of the raw signals -/

/-- The conversions of the format of the raw signals: one after the label
"H2 signal", one after the label "Ethanol signal". -/
theorem conversions_raw_format :
    conversions "H2 signal\t\t0x%-4X\t\tEthanol signal\t0x%-4X\n"
      = [("H2 signal\t\t0x", "%-4X"), ("\t\tEthanol signal\t0x", "%-4X")] := by
  decide

/-- The sibling line for CO2 and TVOC passes one value per conversion, each
under its own label. -/
theorem printf_binding_AirQual (svm : svm_par) :
    printf_binding "CO2 equivalent\t\t%-5d\t\tTVOC\t\t%-5d\n"
        [Arg.num svm.v.CO2eq, Arg.num svm.v.TVOC]
      = [(("CO2 equivalent\t\t", "%-5d"), Arg.num svm.v.CO2eq),
         (("\t\tTVOC\t\t", "%-5d"), Arg.num svm.v.TVOC)] := by
  have h : conversions "CO2 equivalent\t\t%-5d\t\tTVOC\t\t%-5d\n"
      = [("CO2 equivalent\t\t", "%-5d"), ("\t\tTVOC\t\t", "%-5d")] := by decide
  simp [printf_binding, h]

/-- C17, on the code: with the display of the raw signals selected,
`do_output` prints one line whose format has two conversions and to which
three values are passed, the text "H2 signal" first.  So the conversion under
the label "H2 signal" takes that text (its address), the conversion under the
label "Ethanol signal" takes `H2_signal`, and `Ethanol_signal` is bound to no
conversion: it is not printed. -/
theorem raw_signals_are_bound_one_place_late (svm : svm_par) (output : Bool) (g : State) :
    (do_output_raw { svm with raw := true } output g).2.trace
      = g.trace ++ [Event.p_printf (if g.NoColor then WHITE else GREEN)
          "H2 signal\t\t0x%-4X\t\tEthanol signal\t0x%-4X\n"
          [Arg.str "H2 signal", Arg.num svm.v.H2_signal, Arg.num svm.v.Ethanol_signal]]
    ∧ printf_binding "H2 signal\t\t0x%-4X\t\tEthanol signal\t0x%-4X\n"
        [Arg.str "H2 signal", Arg.num svm.v.H2_signal, Arg.num svm.v.Ethanol_signal]
      = [(("H2 signal\t\t0x", "%-4X"), Arg.str "H2 signal"),
         (("\t\tEthanol signal\t0x", "%-4X"), Arg.num svm.v.H2_signal)] := by
  constructor
  · simp [do_output_raw]
  · simp [printf_binding, conversions_raw_format]

/-! ## C11: the checksum -/

set_option maxRecDepth 100000 in
/-- Eight turns of the shift register are the reduction of `x^8` times the
register modulo the generator, for every content of the register. -/
theorem CalcCrC_bit_table :
    ∀ x < 256, CalcCrC_bit^[8] x = gf2_mod 0x131 8 (x <<< 8) ∧ CalcCrC_bit^[8] x < 256 := by
  decide

theorem CalcCrC_byte_eq (crc byte : Nat) (hc : crc < 256) (hb : byte < 256) :
    CalcCrC_byte crc byte = crc8_reference_byte crc byte ∧ CalcCrC_byte crc byte < 256 := by
  have hx : crc ^^^ byte < 256 := Nat.xor_lt_two_pow (n := 8) hc hb
  exact CalcCrC_bit_table (crc ^^^ byte) hx

/-- C11: the word checksum `CalcCrC` is the CRC-8 with polynomial 0x31 and
initial value 0xFF over the two bytes of a word, MSB then LSB.  For every
pair of bytes it equals the reference CRC, it is a byte, and it depends on
nothing but the two bytes of the word; it reproduces the datasheet's test
vector: the bytes 0xBE, 0xEF give 0x92 (also as the remainder of the whole
word, with the initial value added to its first byte, times `x^8`). -/
theorem CalcCrC_is_crc8 (data0 data1 : Nat) (h0 : data0 < 256) (h1 : data1 < 256) :
    CalcCrC data0 data1 = crc8_reference data0 data1
    ∧ CalcCrC data0 data1 < 256
    ∧ CalcCrC 0xBE 0xEF = 0x92
    ∧ gf2_mod 0x131 16 (((0xBE ^^^ 0xFF) <<< 16) ||| (0xEF <<< 8)) = 0x92 := by
  obtain ⟨e1, l1⟩ := CalcCrC_byte_eq 0xFF data0 (by decide) h0
  obtain ⟨e2, l2⟩ := CalcCrC_byte_eq (CalcCrC_byte 0xFF data0) data1 l1 h1
  refine ⟨?_, l2, by decide, by decide⟩
  simp only [CalcCrC, crc8_reference]
  rw [e2, e1]

/-- C11 at the datasheet's test vector. -/
theorem CalcCrC_is_crc8_witness :
    (0xBE : Nat) < 256 ∧ (0xEF : Nat) < 256
    ∧ CalcCrC 0xBE 0xEF = crc8_reference 0xBE 0xEF
    ∧ CalcCrC 0xBE 0xEF < 256
    ∧ CalcCrC 0xBE 0xEF = 0x92
    ∧ gf2_mod 0x131 16 (((0xBE ^^^ 0xFF) <<< 16) ||| (0xEF <<< 8)) = 0x92 :=
  ⟨by decide, by decide, CalcCrC_is_crc8 0xBE 0xEF (by decide) (by decide)⟩

/-! ## C12: the conversion of the raw words -/

/-- C12, as stated, fails: for the raw words 0x6000 and 0x6000 the conversion
gives the temperature 20625, which is not within a tenth of a degree (nor
within 75 degrees) of 95.9 degrees C, and the humidity 375, which divided by
1000, as `do_output` passes it to the display, is 3/8 and not 37.5. -/
theorem shtc1_conv_0x6000_is_not_95_9_degrees :
    ¬ ((95900 : Int) - 100 ≤ (shtc1_conv 0x6000 0x6000).1
        ∧ (shtc1_conv 0x6000 0x6000).1 ≤ 95900 + 100)
    ∧ Arg.quotient (Arg.fdiv (shtc1_conv 0x6000 0x6000).2 1000) ≠ some (75 / 2) := by
  constructor
  · decide
  · have h : (shtc1_conv 0x6000 0x6000).2 = 375 := by decide
    rw [h]
    simp only [Arg.quotient, ne_eq, Option.some.injEq]
    norm_num

/-- C12, amended: for the raw humidity word 0x6000 and the raw temperature
word 0x6000 the conversion gives the humidity 375 and the temperature 20625,
that is 20.625 degrees C; `do_output` passes both divided by 1000 to the
display, as the numbers 3/8 = 0.375 and 165/8 = 20.625. -/
theorem shtc1_conv_0x6000 (svm : svm_par) (buf0 : Char) (output : Bool) (g : State) :
    shtc1_conv 0x6000 0x6000 = (20625, 375)
    ∧ (do_output_HumTemp
          { svm with
            HumTemp := true
            v := { svm.v with humidity := (shtc1_conv 0x6000 0x6000).2
                              temperature := (shtc1_conv 0x6000 0x6000).1 } }
          buf0 output g).2.trace
        = g.trace ++ [Event.p_printf (if g.NoColor then WHITE else GREEN)
            "Humidity\t\t%-6.2f%%\t\tTemperature\t%-2.2f %c\n"
            [Arg.fdiv 375 1000, Arg.fdiv 20625 1000, Arg.chr buf0]]
    ∧ Arg.quotient (Arg.fdiv 375 1000) = some (3 / 8)
    ∧ Arg.quotient (Arg.fdiv 20625 1000) = some (165 / 8) := by
  have h : shtc1_conv 0x6000 0x6000 = (20625, 375) := by decide
  refine ⟨h, ?_, ?_, ?_⟩
  · simp [do_output_HumTemp, h]
  · simp only [Arg.quotient, Option.some.injEq]
    norm_num
  · simp only [Arg.quotient, Option.some.injEq]
    norm_num

end SVM30
